import Mathlib

/-!
Verification development for the `styletts_2_server` repository (`src/main.py`).

The file embeds the request-handling pipeline of the Flask service as pure
Lean functions:

* JSON values are modelled by an inductive `Json` type whose numbers keep
  Python's runtime distinction between `int` and `float` (`PyNum`); floats
  are modelled by the exact decimal value of their JSON literal, which is
  faithful for the short decimal literals the claims exercise.
* The `jsonschema` validation performed by `parse_inputs` is transcribed
  literally from the schema object in the source (lines 72-104).
* Stateful collaborators (the audio cache, the filesystem scratch
  directories, the external inference process) are modelled by an explicit
  `World` record threaded through the pipeline, plus an `Env` record of
  oracle outcomes for the external calls (cache contents, whether the
  process launch succeeds, what the process writes, whether cleanup
  succeeds).  `World` additionally carries append-only ghost logs
  (`launched`, `cacheReads`, `cacheWrites`, `tempWritten`) so that
  "no side effect happened" claims are directly expressible.
* Functions of the collaborator library `hay_say_common` that the pipeline
  calls (`get_single_file_with_extension`, `get_files_with_extension`,
  `clean_up`, `construct_full_error_message`) are modelled from the spec's
  description of that collaborator, since its source is not part of this
  repository.
-/

namespace StyleTTS2

/-- An exact decimal number, `mantissa / 10 ^ exp`.  Python floats are
modelled by the exact decimal value of their JSON literal; for the short
literals the claims exercise this agrees with binary floating point on
every comparison and stringification the pipeline performs. -/
structure Dec where
  mantissa : Int
  exp : Nat
  deriving DecidableEq, Repr

/-- `d ≤ c` for an integer bound `c`. -/
def Dec.leInt (d : Dec) (c : Int) : Bool :=
  d.mantissa ≤ c * (10 : Int) ^ d.exp

/-- `c ≤ d` for an integer bound `c`. -/
def Dec.geInt (d : Dec) (c : Int) : Bool :=
  c * (10 : Int) ^ d.exp ≤ d.mantissa

/-- Whether the decimal has zero fractional part. -/
def Dec.isWhole (d : Dec) : Bool :=
  d.mantissa % (10 : Int) ^ d.exp == 0

/-- Python runtime numbers as produced by `json.loads`: decimal literals
without a fractional part become `int`, the rest become `float`. -/
inductive PyNum where
  | int (n : Int)
  | float (d : Dec)
  deriving DecidableEq, Repr

/-- `v ≤ c` for an integer bound `c`. -/
def PyNum.leInt : PyNum → Int → Bool
  | .int n, c => n ≤ c
  | .float d, c => d.leInt c

/-- `c ≤ v` for an integer bound `c`. -/
def PyNum.geInt : PyNum → Int → Bool
  | .int n, c => c ≤ n
  | .float d, c => d.geInt c

/-- Whether the number has zero fractional part (the `jsonschema`
`integer` type also accepts such floats, draft 2020-12 semantics). -/
def PyNum.isWhole : PyNum → Bool
  | .int _ => true
  | .float d => d.isWhole

/-- JSON values (object fields keep insertion order; keys are unique after
parsing, as in a Python `dict`). -/
inductive Json where
  | null
  | bool (b : Bool)
  | num (n : PyNum)
  | str (s : String)
  | arr (elems : List Json)
  | obj (fields : List (String × Json))
  deriving Repr

/-- Dictionary lookup, `d[k]` / `k in d`. -/
def Json.get? : Json → String → Option Json
  | .obj fields, k => fields.lookup k
  | _, _ => none

/-- The `jsonschema` "type" check for the primitive type names used by the
schema in `parse_inputs`.  Booleans are not numbers; an `integer` is an
`int` or a `float` with zero fractional part (draft 2020-12 semantics). -/
def isType : Json → String → Bool
  | .obj _, "object" => true
  | .str _, "string" => true
  | .num _, "number" => true
  | .num n, "integer" => n.isWhole
  | .bool _, "boolean" => true
  | .null, "null" => true
  | _, _ => false

/-- A property subschema is only checked when the key is present. -/
def checkProp (o : Json) (k : String) (p : Json → Bool) : Bool :=
  match o.get? k with
  | none => true
  | some v => p v

/-- Key presence, for `required`. -/
def hasKey (o : Json) (k : String) : Bool :=
  (o.get? k).isSome

/-- Subschema for a number constrained to `[lo, hi]` (inclusive, as in
`jsonschema`'s `minimum`/`maximum`; the schema only uses the integer
bounds 0 and 1). -/
def numInRange (lo hi : Int) : Json → Bool
  | .num n => n.geInt lo && n.leInt hi
  | _ => false

/-- Subschema `{'type': 'integer', 'minimum': 1}`. -/
def intAtLeastOne : Json → Bool
  | .num n => n.isWhole && n.geInt 1
  | _ => false

/-- Subschema `{'type': ['string', 'null']}`. -/
def strOrNull (j : Json) : Bool :=
  isType j "string" || isType j "null"

/-- Subschema `{'type': ['string', 'integer']}`. -/
def strOrInt (j : Json) : Bool :=
  isType j "string" || isType j "integer"

/-- The `Inputs` subschema of `parse_inputs` (source lines 75-82). -/
def checkInputs (j : Json) : Bool :=
  isType j "object" &&
  checkProp j "User Text" (fun v => isType v "string") &&
  checkProp j "User Audio" strOrNull &&
  hasKey j "User Text"

/-- The `Options` subschema of `parse_inputs` (source lines 83-98). -/
def checkOptions (j : Json) : Bool :=
  isType j "object" &&
  checkProp j "Character" (fun v => isType v "string") &&
  checkProp j "Noise" (fun v => isType v "number") &&
  checkProp j "Style Blend" (numInRange 0 1) &&
  checkProp j "Diffusion Steps" intAtLeastOne &&
  checkProp j "Embedding Scale" (fun v => isType v "number") &&
  checkProp j "Use Long Form" (fun v => isType v "boolean") &&
  checkProp j "Enable Reference Audio" (fun v => isType v "boolean") &&
  checkProp j "Timbre Reference Blend" (numInRange 0 1) &&
  checkProp j "Prosody Reference Blend" (numInRange 0 1) &&
  (hasKey j "Character" && hasKey j "Noise" && hasKey j "Style Blend" &&
   hasKey j "Diffusion Steps" && hasKey j "Embedding Scale" &&
   hasKey j "Use Long Form")

/-- `jsonschema.validate(instance=request.json, schema=schema)` of
`parse_inputs`, transcribed from the schema literal (source lines 72-104).
Returns `true` when the instance is valid. -/
def validateSchema (j : Json) : Bool :=
  isType j "object" &&
  checkProp j "Inputs" checkInputs &&
  checkProp j "Options" checkOptions &&
  checkProp j "Output File" (fun v => isType v "string") &&
  checkProp j "GPU ID" strOrInt &&
  checkProp j "Session ID" strOrNull &&
  (hasKey j "Inputs" && hasKey j "Options" && hasKey j "Output File" &&
   hasKey j "GPU ID" && hasKey j "Session ID")

/-- Errors raised inside the `try` block of `generate`: a
`BadInputException` is answered with HTTP 400, every other exception with
HTTP 500. -/
inductive Err where
  | badInput (msg : String)
  | internal (msg : String)
  deriving DecidableEq, Repr

/-- `d[k]`: raises `KeyError` (a plain `Exception`, not a
`BadInputException`) when the key is absent. -/
def getKey (j : Json) (k : String) : Except Err Json :=
  match j.get? k with
  | some v => .ok v
  | none => .error (.internal ("KeyError: " ++ k))

/-- Coerce a JSON value known (from validation) to be a string. -/
def asStr : Json → Except Err String
  | .str s => .ok s
  | _ => .error (.internal "TypeError: expected str")

/-- Coerce a JSON value known to be a string or `None`. -/
def asOptStr : Json → Except Err (Option String)
  | .str s => .ok (some s)
  | .null => .ok none
  | _ => .error (.internal "TypeError: expected str or None")

/-- Coerce a JSON value known to be a number. -/
def asNum : Json → Except Err PyNum
  | .num n => .ok n
  | _ => .error (.internal "TypeError: expected number")

/-- Coerce a JSON value known to be a boolean. -/
def asBool : Json → Except Err Bool
  | .bool b => .ok b
  | _ => .error (.internal "TypeError: expected bool")

/-- The tuple returned by `parse_inputs` (source lines 126-128). -/
structure Parsed where
  userText : String
  character : String
  noise : PyNum
  styleBlend : PyNum
  diffusionSteps : PyNum
  embeddingScale : PyNum
  useLongForm : Bool
  inputHash : Option String
  enableReferenceAudio : Bool
  timbreRefBlend : PyNum
  prosodyRefBlend : PyNum
  outputFile : String
  gpuId : Json
  sessionId : Option String

/-- `parse_inputs` (source lines 71-128): validate the body against the
schema (a failure raises `BadInputException`), then extract the fields by
plain dictionary indexing in source order.  Note that the extraction
indexes `Inputs['User Audio']`, `Options['Enable Reference Audio']`,
`Options['Timbre Reference Blend']` and `Options['Prosody Reference
Blend']` unconditionally even though the schema does not require them, so
their absence raises `KeyError`. -/
def parse_inputs (body : Json) : Except Err Parsed :=
  if validateSchema body then do
    let inputs ← getKey body "Inputs"
    let options ← getKey body "Options"
    let userText ← asStr (← getKey inputs "User Text")
    let character ← asStr (← getKey options "Character")
    let noise ← asNum (← getKey options "Noise")
    let styleBlend ← asNum (← getKey options "Style Blend")
    let diffusionSteps ← asNum (← getKey options "Diffusion Steps")
    let embeddingScale ← asNum (← getKey options "Embedding Scale")
    let useLongForm ← asBool (← getKey options "Use Long Form")
    let inputHash ← asOptStr (← getKey inputs "User Audio")
    let enableReferenceAudio ← asBool (← getKey options "Enable Reference Audio")
    let timbreRefBlend ← asNum (← getKey options "Timbre Reference Blend")
    let prosodyRefBlend ← asNum (← getKey options "Prosody Reference Blend")
    let outputFile ← asStr (← getKey body "Output File")
    let gpuId ← getKey body "GPU ID"
    let sessionId ← asOptStr (← getKey body "Session ID")
    return { userText, character, noise, styleBlend, diffusionSteps, embeddingScale,
             useLongForm, inputHash, enableReferenceAudio, timbreRefBlend,
             prosodyRefBlend, outputFile, gpuId, sessionId }
  else
    .error (.badInput "jsonschema validation failed")

/-- Strip factors of ten shared by the mantissa and the exponent, as the
shortest-roundtrip `repr` of a Python float does (`str(0.50)` on the float
parsed from `0.50` prints `0.5`). -/
def Dec.normalize : Int → Nat → Int × Nat
  | m, 0 => (m, 0)
  | m, e + 1 =>
    if m % 10 == 0 then Dec.normalize (m / 10) e
    else (m, e + 1)

/-- `str()` of a Python float with nonnegative normalized mantissa `m` and
decimal exponent `e`: the digits of `m`, left-padded with zeros to more
than `e` digits, with a point inserted before the last `e` digits
(`e = 0` prints a trailing `.0`). -/
def floatStrPos (m : Nat) (e : Nat) : String :=
  if e = 0 then toString m ++ ".0"
  else
    let ds := (toString m).data
    let ds := List.replicate (e + 1 - ds.length) '0' ++ ds
    ⟨ds.take (ds.length - e) ++ '.' :: ds.drop (ds.length - e)⟩

/-- `str()` of a Python float. -/
def floatStr (d : Dec) : String :=
  let (m, e) := Dec.normalize d.mantissa d.exp
  if m < 0 then "-" ++ floatStrPos m.natAbs e else floatStrPos m.natAbs e

/-- Python `str()` on a number. -/
def pyStr : PyNum → String
  | .int n => toString n
  | .float d => floatStr d

/-! ### Path constants (source lines 15-31)

`hsc.ROOT_DIR` and the layout of the character-model directory live in the
`hay_say_common` collaborator; their concrete string values are irrelevant
to the claims, so representative constants are used. -/

def ROOT_DIR : String := "/root/hay_say"

def pathJoin (a b : String) : String := a ++ "/" ++ b

def ARCHITECTURE_NAME : String := "styletts_2"

def ARCHITECTURE_ROOT : String := pathJoin ROOT_DIR ARCHITECTURE_NAME

def INPUT_COPY_FOLDER : String := pathJoin ARCHITECTURE_ROOT "input"

def OUTPUT_COPY_FOLDER : String := pathJoin ARCHITECTURE_ROOT "output"

def TEMP_FILE_EXTENSION : String := ".wav"

def PYTHON_EXECUTABLE : String :=
  pathJoin (pathJoin (pathJoin ROOT_DIR ".venvs") ARCHITECTURE_NAME) "bin/python"

def INFERENCE_SCRIPT_PATH : String := pathJoin ARCHITECTURE_ROOT "command_line_interface.py"

def WEIGHTS_FILE_EXTENSION : String := ".pth"

def CONFIG_FILE_EXTENSION : String := ".yml"

def CONFIG_FILE_EXTENSION_ALT : String := ".yaml"

def STYLE_FILE_EXTENSION : String := ".json"

/-- Modelled from the spec: `hay_say_common.character_dir(architecture,
character)` resolves a voice name to its model directory path. -/
def character_dir (character : String) : String :=
  pathJoin (pathJoin (pathJoin ROOT_DIR "models") ARCHITECTURE_NAME) character

/-- Abstract audio payload (sample array plus sample rate); the pipeline
only moves it around unchanged, so an opaque token suffices. -/
abbrev Audio := Nat

/-- The two cache stages this service touches
(`hay_say_common.cache.Stage`). -/
inductive Stage where
  | PREPROCESSED
  | OUTPUT
  deriving DecidableEq, Repr

/-- The mutable outside state the pipeline touches, plus append-only ghost
logs of the side effects performed (the logs are never erased, unlike the
directory contents, so claims about "no side effect" are expressible). -/
structure World where
  /-- Files currently in `INPUT_COPY_FOLDER` (name within the folder ↦ content). -/
  inputDirFiles : List (String × Audio)
  /-- Files currently in `OUTPUT_COPY_FOLDER`. -/
  outputDirFiles : List (String × Audio)
  /-- OUTPUT-stage cache contents: (session id, item id) ↦ audio. -/
  cacheOut : List (Option String × String × Audio)
  /-- Character-model repository: voice name ↦ directory listing (`none` =
  directory missing). -/
  voices : String → Option (List String)
  /-- Ghost log: argument vectors of every external process launched. -/
  launched : List (List String)
  /-- Ghost log: every cache read attempted (PREPROCESSED stage). -/
  cacheReads : List (Option String × String)
  /-- Ghost log: every successful cache write (OUTPUT stage). -/
  cacheWrites : List (Option String × String × Audio)
  /-- Ghost log: every temporary file written by the service itself. -/
  tempWritten : List String

/-- Outcomes of the external calls for one request: what the PREPROCESSED
cache holds, and whether each fallible collaborator call succeeds. -/
structure Env where
  /-- `cache.read_audio_from_cache(Stage.PREPROCESSED, session, hash)`:
  `none` means the read raises (miss/failure). -/
  cachePre : Option String → String → Option Audio
  /-- Whether `soundfile.write` succeeds. -/
  sfWriteOk : Bool
  /-- Whether `subprocess.run` manages to launch the process. -/
  launchOk : Bool
  /-- The audio the external process leaves at the expected output path
  (`none`: it leaves nothing, e.g. it failed silently). -/
  procOutput : Option Audio
  /-- Whether `cache.save_audio_to_cache` succeeds. -/
  saveOk : Bool
  /-- Whether `hsc.clean_up` succeeds (it can raise, e.g. when an
  enumerated directory entry cannot be removed). -/
  cleanOk : Bool

/-- Write a file into a directory listing, overwriting an existing file of
the same name. -/
def fsWrite (files : List (String × Audio)) (name : String) (a : Audio) :
    List (String × Audio) :=
  files.filter (fun f => f.1 ≠ name) ++ [(name, a)]

/-- Read a file from a directory listing. -/
def fsRead (files : List (String × Audio)) (name : String) : Option Audio :=
  files.lookup name

/-- Overwrite-or-insert into the OUTPUT cache. -/
def cacheInsert (entries : List (Option String × String × Audio))
    (session : Option String) (item : String) (a : Audio) :
    List (Option String × String × Audio) :=
  entries.filter (fun e => ¬(e.1 = session ∧ e.2.1 = item)) ++ [(session, item, a)]

/-- Cache lookup at the OUTPUT stage. -/
def cacheLookup (entries : List (Option String × String × Audio))
    (session : Option String) (item : String) : Option Audio :=
  (entries.filter (fun e => e.1 = session ∧ e.2.1 = item)).getLast?.map (·.2.2)

/-- `get_temp_files` (source lines 195-197): every file currently in the
output folder, then every file in the input folder, as full paths. -/
def get_temp_files (w : World) : List String :=
  w.outputDirFiles.map (fun f => pathJoin OUTPUT_COPY_FOLDER f.1) ++
  w.inputDirFiles.map (fun f => pathJoin INPUT_COPY_FOLDER f.1)

/-- Abstraction of `traceback.format_exc()` for a `BadInputException`
carrying the validation message (the exact traceback text is opaque to the
claims). -/
def badInputTraceback (msg : String) : String :=
  "Traceback (most recent call last): BadInputException: " ++ msg

/-- Modelled from the spec: `hay_say_common.construct_full_error_message`
produces a best-effort diagnostic that includes the temp-file context; the
exact text is opaque to the claims. -/
def construct_full_error_message (files : List String) : String :=
  "No input files to report; temporary files: " ++ String.intercalate ", " files

/-- `prepare_reference_audio` (source lines 135-146): returns `None`
unless reference audio is enabled and a hash is supplied; otherwise reads
the PREPROCESSED cache entry and writes it to a temp file, wrapping any
failure in a generic exception. -/
def prepare_reference_audio (env : Env) (inputHash : Option String)
    (enableReferenceAudio : Bool) (sessionId : Option String) (w : World) :
    World × Except Err (Option String) :=
  match inputHash, enableReferenceAudio with
  | none, _ => (w, .ok none)
  | some _, false => (w, .ok none)
  | some h, true =>
    let target := pathJoin INPUT_COPY_FOLDER (h ++ TEMP_FILE_EXTENSION)
    let w := { w with cacheReads := w.cacheReads ++ [(sessionId, h)] }
    match env.cachePre sessionId h with
    | none => (w, .error (.internal "Unable to save reference audio to a temporary file."))
    | some a =>
      if env.sfWriteOk then
        ({ w with inputDirFiles := fsWrite w.inputDirFiles (h ++ TEMP_FILE_EXTENSION) a,
                  tempWritten := w.tempWritten ++ [target] },
         .ok (some target))
      else
        (w, .error (.internal "Unable to save reference audio to a temporary file."))

/-- Python `str.endswith`, computed on character lists. -/
def strEndsWith (s suffix : String) : Bool :=
  s.data.drop (s.data.length - suffix.data.length) == suffix.data

/-- Modelled from the spec: `hay_say_common.get_single_file_with_extension`
returns the full path of the single file in the directory with the given
extension, and raises if the directory is missing or the candidate count is
not exactly one. -/
def get_single_file_with_extension (dirPath : String) :
    Option (List String) → String → Except Err String
  | none, _ => .error (.internal ("FileNotFoundError: " ++ dirPath))
  | some files, extension =>
    match files.filter (fun f => strEndsWith f extension) with
    | [f] => .ok (pathJoin dirPath f)
    | _ => .error (.internal ("expected a single file with extension " ++ extension))

/-- Modelled from the spec: `hay_say_common.get_files_with_extension`
returns the full paths of all files in the directory with the given
extension, raising only if the directory is missing. -/
def get_files_with_extension (dirPath : String) :
    Option (List String) → String → Except Err (List String)
  | none, _ => .error (.internal ("FileNotFoundError: " ++ dirPath))
  | some files, extension =>
    .ok ((files.filter (fun f => strEndsWith f extension)).map (pathJoin dirPath))

/-- `get_config_file` (source lines 148-154): try the single `.yml` file;
on any exception fall back to the single `.yaml` file. -/
def get_config_file (dirPath : String) (listing : Option (List String)) :
    Except Err String :=
  match get_single_file_with_extension dirPath listing CONFIG_FILE_EXTENSION with
  | .ok f => .ok f
  | .error _ => get_single_file_with_extension dirPath listing CONFIG_FILE_EXTENSION_ALT

/-- `get_style_file` (source lines 156-159): the first `.json` file if any. -/
def get_style_file (dirPath : String) (listing : Option (List String)) :
    Except Err (Option String) :=
  match get_files_with_extension dirPath listing STYLE_FILE_EXTENSION with
  | .ok files => .ok files.head?
  | .error e => .error e

/-- The file lookups `execute_program` performs before building the
argument list, in source order: config file (line 165), style file (line
166), weights file (line 169). -/
def resolveVoice (dirPath : String) (listing : Option (List String)) :
    Except Err (String × Option String × String) :=
  match get_config_file dirPath listing with
  | .error e => .error e
  | .ok config =>
    match get_style_file dirPath listing with
    | .error e => .error e
    | .ok style =>
      match get_single_file_with_extension dirPath listing WEIGHTS_FILE_EXTENSION with
      | .error e => .error e
      | .ok weights => .ok (config, style, weights)

/-- One optional flag/value pair of the argument list: `['--flag',
str(value)] if value is not None else [None, None]`. -/
def optArgPair (flag : String) : Option String → List (Option String)
  | some v => [some flag, some v]
  | none => [none, none]

/-- The final comprehension `[argument for argument in arguments if
argument]` (source line 184): Python truthiness drops both `None` entries
and empty strings. -/
def truthyFilter (l : List (Option String)) : List String :=
  l.filterMap fun a =>
    match a with
    | some s => if s = "" then none else some s
    | none => none

/-- The `arguments` list literal of `execute_program` (source lines
167-184), before and after the truthiness filter.  Note the source passes
`--embedding_scale` twice (lines 176 and 177 are identical). -/
def rawArguments (userText weights config outPath : String)
    (noise styleBlend diffusionSteps embeddingScale : Option String)
    (useLongForm : Bool) (referenceAudio : Option String)
    (enableReferenceAudio : Bool) (styleFile : Option String)
    (timbre prosody : Option String) : List (Option String) :=
  [some "--text", some userText,
   some "--weights_file", some weights,
   some "--config_file", some config,
   some "--output_filepath", some outPath]
  ++ optArgPair "--noise" noise
  ++ optArgPair "--style_blend" styleBlend
  ++ optArgPair "--diffusion_steps" diffusionSteps
  ++ optArgPair "--embedding_scale" embeddingScale
  ++ optArgPair "--embedding_scale" embeddingScale
  ++ (if useLongForm then [some "--use_long_form"] else [none])
  ++ (if enableReferenceAudio then [some "--reference_audio", referenceAudio]
      else [none, none])
  ++ (match styleFile, enableReferenceAudio with
      | some sf, false =>
        if sf = "" then [none, none] else [some "--reference_style", some sf]
      | _, _ => [none, none])
  ++ optArgPair "--timbre_ref_blend" timbre
  ++ optArgPair "--prosody_ref_blend" prosody

/-- The argument list actually passed to `subprocess.run`. -/
def buildArguments (userText weights config outPath : String)
    (noise styleBlend diffusionSteps embeddingScale : Option String)
    (useLongForm : Bool) (referenceAudio : Option String)
    (enableReferenceAudio : Bool) (styleFile : Option String)
    (timbre prosody : Option String) : List String :=
  truthyFilter (rawArguments userText weights config outPath noise styleBlend
    diffusionSteps embeddingScale useLongForm referenceAudio
    enableReferenceAudio styleFile timbre prosody)

/-- The full command line `subprocess.run` receives (source line 186). -/
def inferenceCommand (p : Parsed) (config : String) (style : Option String)
    (weights : String) (referenceAudio : Option String) : List String :=
  PYTHON_EXECUTABLE :: INFERENCE_SCRIPT_PATH ::
    buildArguments p.userText weights config
      (pathJoin OUTPUT_COPY_FOLDER (p.outputFile ++ TEMP_FILE_EXTENSION))
      (some (pyStr p.noise)) (some (pyStr p.styleBlend))
      (some (pyStr p.diffusionSteps)) (some (pyStr p.embeddingScale))
      p.useLongForm referenceAudio p.enableReferenceAudio style
      (some (pyStr p.timbreRefBlend)) (some (pyStr p.prosodyRefBlend))

/-- `execute_program` (source lines 161-186): resolve the voice files,
build the argument list, select hardware, and run the external process
synchronously.  A successful launch records the command line; whatever the
process leaves at the expected output path appears in the output folder
(its exit status is not checked). -/
def execute_program (env : Env) (p : Parsed) (referenceAudio : Option String)
    (w : World) : World × Except Err Unit :=
  match resolveVoice (character_dir p.character) (w.voices p.character) with
  | .error e => (w, .error e)
  | .ok (config, style, weights) =>
    if env.launchOk then
      match env.procOutput with
      | some a =>
        ({ w with
            launched := w.launched ++ [inferenceCommand p config style weights referenceAudio],
            outputDirFiles := fsWrite w.outputDirFiles (p.outputFile ++ TEMP_FILE_EXTENSION) a },
         .ok ())
      | none =>
        ({ w with
            launched := w.launched ++ [inferenceCommand p config style weights referenceAudio] },
         .ok ())
    else
      (w, .error (.internal "failed to launch the inference process"))

/-- `copy_output` (source lines 189-192): read the produced audio from the
output folder (raising if absent) and store it in the OUTPUT cache. -/
def copy_output (env : Env) (outputFile : String) (sessionId : Option String)
    (w : World) : World × Except Err Unit :=
  match fsRead w.outputDirFiles (outputFile ++ TEMP_FILE_EXTENSION) with
  | none => (w, .error (.internal "read_audio: no such file"))
  | some a =>
    if env.saveOk then
      ({ w with cacheOut := cacheInsert w.cacheOut sessionId outputFile a,
                cacheWrites := w.cacheWrites ++ [(sessionId, outputFile, a)] },
       .ok ())
    else
      (w, .error (.internal "save_audio_to_cache failed"))

/-- Modelled from the spec: `hsc.clean_up(get_temp_files())` deletes every
enumerated file (best-effort: it can raise, in which case the directory
contents are left as they were). -/
def clean_up_temp (env : Env) (w : World) : World × Except Err Unit :=
  if env.cleanOk then
    ({ w with inputDirFiles := [], outputDirFiles := [] }, .ok ())
  else
    (w, .error (.internal "clean_up failed"))

/-- The `except` clauses of `generate` (source lines 52-57): a
`BadInputException` yields 400 with the traceback text; any other exception
yields 500 with the full error message built from the temp files present at
handling time. -/
def handleErr : Err → World → (Nat × String) × World
  | .badInput m, w => ((400, badInputTraceback m), w)
  | .internal _, w => ((500, construct_full_error_message (get_temp_files w)), w)

/-- The `try` block of `generate` (source lines 38-57), threading the
world through parse → prepare → execute → copy → clean-up, with the first
raised exception routed to `handleErr`.  Returns the pre-encoding
`(code, message)` pair together with the final world. -/
def generateCore (env : Env) (body : Json) (w0 : World) : (Nat × String) × World :=
  match parse_inputs body with
  | .error e => handleErr e w0
  | .ok p =>
    match prepare_reference_audio env p.inputHash p.enableReferenceAudio p.sessionId w0 with
    | (w1, .error e) => handleErr e w1
    | (w1, .ok referenceAudio) =>
      match execute_program env p referenceAudio w1 with
      | (w2, .error e) => handleErr e w2
      | (w2, .ok _) =>
        match copy_output env p.outputFile p.sessionId w2 with
        | (w3, .error e) => handleErr e w3
        | (w3, .ok _) =>
          match clean_up_temp env w3 with
          | (w4, .error e) => handleErr e w4
          | (w4, .ok _) => ((200, ""), w4)

/-! ### base64 and UTF-8

`generate` sends `base64.b64encode(bytes(message, 'utf-8'))` (source line
60); a consumer recovers the text by base64-decoding and UTF-8-decoding.
Both codecs are implemented on byte lists (`Nat` values below 256). -/

/-- The standard base64 alphabet. -/
def b64Alphabet : List Char :=
  "ABCDEFGHIJKLMNOPQRSTUVWXYZabcdefghijklmnopqrstuvwxyz0123456789+/".data

/-- Sextet → base64 character. -/
def b64Char (n : Nat) : Char := b64Alphabet.getD n 'A'

/-- Base64 character → sextet. -/
def b64CharDec (c : Char) : Option Nat :=
  (List.range 64).find? (fun n => b64Char n = c)

/-- `base64.b64encode`: bytes → base64 characters, three bytes per four
characters, `'='`-padded. -/
def b64EncodeBytes : List Nat → List Char
  | [] => []
  | [b1] => [b64Char (b1 / 4), b64Char (b1 % 4 * 16), '=', '=']
  | [b1, b2] =>
    [b64Char (b1 / 4), b64Char (b1 % 4 * 16 + b2 / 16), b64Char (b2 % 16 * 4), '=']
  | b1 :: b2 :: b3 :: rest =>
    b64Char (b1 / 4) :: b64Char (b1 % 4 * 16 + b2 / 16) ::
    b64Char (b2 % 16 * 4 + b3 / 64) :: b64Char (b3 % 64) :: b64EncodeBytes rest

/-- `base64.b64decode`: base64 characters → bytes, rejecting malformed
input. -/
def b64DecodeBytes : List Char → Option (List Nat)
  | [] => some []
  | c1 :: c2 :: c3 :: c4 :: rest => do
    let s1 ← b64CharDec c1
    let s2 ← b64CharDec c2
    if c3 = '=' ∧ c4 = '=' ∧ rest = [] then
      if s2 % 16 = 0 then some [s1 * 4 + s2 / 16] else none
    else if c4 = '=' ∧ rest = [] then do
      let s3 ← b64CharDec c3
      if s3 % 4 = 0 then
        some [s1 * 4 + s2 / 16, s2 % 16 * 16 + s3 / 4]
      else none
    else do
      let s3 ← b64CharDec c3
      let s4 ← b64CharDec c4
      let tail ← b64DecodeBytes rest
      some ((s1 * 4 + s2 / 16) :: (s2 % 16 * 16 + s3 / 4) :: (s3 % 4 * 64 + s4) :: tail)
  | _ => none

/-- `bytes(s, 'utf-8')` for one character. -/
def utf8EncodeChar (c : Char) : List Nat :=
  let n := c.toNat
  if n < 128 then [n]
  else if n < 2048 then [192 + n / 64, 128 + n % 64]
  else if n < 65536 then [224 + n / 4096, 128 + n / 64 % 64, 128 + n % 64]
  else [240 + n / 262144, 128 + n / 4096 % 64, 128 + n / 64 % 64, 128 + n % 64]

/-- `bytes(s, 'utf-8')` for a string. -/
def utf8Encode (s : String) : List Nat :=
  s.data.flatMap utf8EncodeChar

/-- Decode one UTF-8-encoded character from the front of a byte list,
returning it with the remaining bytes (the consumer's `.decode('utf-8')`,
one step). -/
def utf8DecodeOne : List Nat → Option (Char × List Nat)
  | [] => none
  | b1 :: rest =>
    if b1 < 128 then some (Char.ofNat b1, rest)
    else if b1 < 192 then none
    else if b1 < 224 then
      match rest with
      | b2 :: r =>
        if 128 ≤ b2 ∧ b2 < 192 then
          some (Char.ofNat ((b1 - 192) * 64 + (b2 - 128)), r)
        else none
      | [] => none
    else if b1 < 240 then
      match rest with
      | b2 :: b3 :: r =>
        if 128 ≤ b2 ∧ b2 < 192 ∧ 128 ≤ b3 ∧ b3 < 192 then
          some (Char.ofNat ((b1 - 224) * 4096 + (b2 - 128) * 64 + (b3 - 128)), r)
        else none
      | _ => none
    else
      match rest with
      | b2 :: b3 :: b4 :: r =>
        if 128 ≤ b2 ∧ b2 < 192 ∧ 128 ≤ b3 ∧ b3 < 192 ∧ 128 ≤ b4 ∧ b4 < 192 then
          some (Char.ofNat ((b1 - 240) * 262144 + (b2 - 128) * 4096 +
            (b3 - 128) * 64 + (b4 - 128)), r)
        else none
      | _ => none

/-- Fuelled UTF-8 decoding loop; each decoded character consumes at least
one byte, so the byte count is sufficient fuel. -/
def utf8DecodeFuel : Nat → List Nat → Option (List Char)
  | _, [] => some []
  | 0, _ :: _ => none
  | fuel + 1, l =>
    match utf8DecodeOne l with
    | none => none
    | some (c, r) => (utf8DecodeFuel fuel r).map (fun cs => c :: cs)

/-- UTF-8 decoding of a byte list (the consumer's `.decode('utf-8')`). -/
def utf8Decode (l : List Nat) : Option (List Char) :=
  utf8DecodeFuel l.length l

/-- Source line 60: `base64.b64encode(bytes(message, 'utf-8')).decode('utf-8')`. -/
def encodeMessage (m : String) : String :=
  ⟨b64EncodeBytes (utf8Encode m)⟩

/-- A consumer's decoding: base64-decode, then UTF-8-decode. -/
def decodeMessage (s : String) : Option String :=
  (b64DecodeBytes s.data).bind (fun bytes => (utf8Decode bytes).map fun cs => ⟨cs⟩)

/-- The HTTP response: the JSON body `{"message": <encoded>}` built on
source lines 61-65, and the status code. -/
structure HttpResponse where
  body : Json
  code : Nat

/-- `generate` (source lines 38-65): run the pipeline, then base64-encode
the message and wrap it in the single-field JSON response object. -/
def generate (env : Env) (body : Json) (w : World) : HttpResponse × World :=
  let ((code, message), w') := generateCore env body w
  ({ body := Json.obj [("message", Json.str (encodeMessage message))], code := code }, w')

/-! ### Codec lemmas -/

/-- Decoding a base64 character of the alphabet recovers its sextet. -/
theorem b64CharDec_b64Char : ∀ n < 64, b64CharDec (b64Char n) = some n := by decide

/-- Alphabet characters are never the padding character. -/
theorem b64Char_ne_pad : ∀ n < 64, b64Char n ≠ '=' := by decide

/-- Base64 decoding inverts base64 encoding on byte lists. -/
theorem b64DecodeBytes_encode (l : List Nat) (h : ∀ b ∈ l, b < 256) :
    b64DecodeBytes (b64EncodeBytes l) = some l := by
  induction l using b64EncodeBytes.induct with
  | case1 => rfl
  | case2 b1 =>
    have hb1 : b1 < 256 := h b1 (by simp)
    have h1 : b1 / 4 < 64 := by omega
    have h2 : b1 % 4 * 16 < 64 := by omega
    have e0 : b1 % 4 * 16 % 16 = 0 := by omega
    have e1 : b1 / 4 * 4 + b1 % 4 * 16 / 16 = b1 := by omega
    have e1x : b1 / 4 * 4 + b1 % 4 = b1 := by omega
    simp [b64EncodeBytes, b64DecodeBytes, b64CharDec_b64Char _ h1,
      b64CharDec_b64Char _ h2, e0, e1, e1x]
  | case3 b1 b2 =>
    have hb1 : b1 < 256 := h b1 (by simp)
    have hb2 : b2 < 256 := h b2 (by simp)
    have h1 : b1 / 4 < 64 := by omega
    have h2 : b1 % 4 * 16 + b2 / 16 < 64 := by omega
    have h3 : b2 % 16 * 4 < 64 := by omega
    have e0 : b2 % 16 * 4 % 4 = 0 := by omega
    have e1 : b1 / 4 * 4 + (b1 % 4 * 16 + b2 / 16) / 16 = b1 := by omega
    have e2 : (b1 % 4 * 16 + b2 / 16) % 16 * 16 + b2 % 16 * 4 / 4 = b2 := by omega
    have e2x : (b1 % 4 * 16 + b2 / 16) % 16 * 16 + b2 % 16 = b2 := by omega
    simp [b64EncodeBytes, b64DecodeBytes, b64CharDec_b64Char _ h1,
      b64CharDec_b64Char _ h2, b64CharDec_b64Char _ h3,
      b64Char_ne_pad _ h3, e0, e1, e2, e2x]
  | case4 b1 b2 b3 rest ih =>
    have hb1 : b1 < 256 := h b1 (by simp)
    have hb2 : b2 < 256 := h b2 (by simp)
    have hb3 : b3 < 256 := h b3 (by simp)
    have h1 : b1 / 4 < 64 := by omega
    have h2 : b1 % 4 * 16 + b2 / 16 < 64 := by omega
    have h3 : b2 % 16 * 4 + b3 / 64 < 64 := by omega
    have h4 : b3 % 64 < 64 := by omega
    have e1 : b1 / 4 * 4 + (b1 % 4 * 16 + b2 / 16) / 16 = b1 := by omega
    have e2 : (b1 % 4 * 16 + b2 / 16) % 16 * 16 + (b2 % 16 * 4 + b3 / 64) / 4 = b2 := by omega
    have e3 : (b2 % 16 * 4 + b3 / 64) % 4 * 64 + b3 % 64 = b3 := by omega
    have htail := ih (fun b hb => h b (by simp [hb]))
    simp [b64EncodeBytes, b64DecodeBytes, b64CharDec_b64Char _ h1,
      b64CharDec_b64Char _ h2, b64CharDec_b64Char _ h3, b64CharDec_b64Char _ h4,
      b64Char_ne_pad _ h3, b64Char_ne_pad _ h4, htail, e1, e2, e3]

/-- Every code point of a `Char` is below `0x110000`. -/
theorem char_toNat_lt (c : Char) : c.toNat < 1114112 := by
  have h := c.valid
  have he : c.toNat = c.val.toNat := rfl
  rcases h with h | h <;> omega

/-- UTF-8 encoding produces bytes. -/
theorem utf8EncodeChar_lt (c : Char) : ∀ b ∈ utf8EncodeChar c, b < 256 := by
  have hv : c.toNat < 1114112 := char_toNat_lt c
  intro b hb
  simp only [utf8EncodeChar] at hb
  split_ifs at hb <;> simp at hb <;> omega

/-- UTF-8 encoding of a string produces bytes. -/
theorem utf8Encode_lt (s : String) : ∀ b ∈ utf8Encode s, b < 256 := by
  intro b hb
  simp only [utf8Encode, List.mem_flatMap] at hb
  obtain ⟨c, _, hc⟩ := hb
  exact utf8EncodeChar_lt c b hc

/-- The UTF-8 encoding of a character is nonempty. -/
theorem utf8EncodeChar_ne_nil (c : Char) : utf8EncodeChar c ≠ [] := by
  simp only [utf8EncodeChar]
  split_ifs <;> simp

/-- Decoding one character from the UTF-8 bytes of `c` followed by any
tail recovers `c` and the tail. -/
theorem utf8DecodeOne_encodeChar (c : Char) (rest : List Nat) :
    utf8DecodeOne (utf8EncodeChar c ++ rest) = some (c, rest) := by
  have hv : c.toNat < 1114112 := char_toNat_lt c
  have hofn : Char.ofNat c.toNat = c := Char.ofNat_toNat c
  by_cases h1 : c.toNat < 128
  · have henc : utf8EncodeChar c ++ rest = c.toNat :: rest := by
      simp [utf8EncodeChar, h1]
    rw [henc]
    simp [utf8DecodeOne, h1, hofn]
  · by_cases h2 : c.toNat < 2048
    · have ha : ¬(192 + c.toNat / 64 < 128) := by omega
      have hb : ¬(192 + c.toNat / 64 < 192) := by omega
      have hc : 192 + c.toNat / 64 < 224 := by omega
      have hcont : 128 ≤ 128 + c.toNat % 64 ∧ 128 + c.toNat % 64 < 192 := by omega
      have harg : (192 + c.toNat / 64 - 192) * 64 + (128 + c.toNat % 64 - 128)
          = c.toNat := by omega
      have henc : utf8EncodeChar c ++ rest
          = (192 + c.toNat / 64) :: (128 + c.toNat % 64) :: rest := by
        simp [utf8EncodeChar, h1, h2]
      have hargx : c.toNat / 64 * 64 + c.toNat % 64 = c.toNat := by omega
      rw [henc]
      simp [utf8DecodeOne, ha, hb, hc, hcont.1, hcont.2, harg, hargx, hofn]
    · by_cases h3 : c.toNat < 65536
      · have ha : ¬(224 + c.toNat / 4096 < 128) := by omega
        have hb : ¬(224 + c.toNat / 4096 < 192) := by omega
        have hc : ¬(224 + c.toNat / 4096 < 224) := by omega
        have hd : 224 + c.toNat / 4096 < 240 := by omega
        have hc2 : 128 ≤ 128 + c.toNat / 64 % 64 ∧ 128 + c.toNat / 64 % 64 < 192 := by omega
        have hc3 : 128 ≤ 128 + c.toNat % 64 ∧ 128 + c.toNat % 64 < 192 := by omega
        have harg : (224 + c.toNat / 4096 - 224) * 4096 +
            (128 + c.toNat / 64 % 64 - 128) * 64 + (128 + c.toNat % 64 - 128)
            = c.toNat := by omega
        have henc : utf8EncodeChar c ++ rest
            = (224 + c.toNat / 4096) :: (128 + c.toNat / 64 % 64) ::
              (128 + c.toNat % 64) :: rest := by
          simp [utf8EncodeChar, h1, h2, h3]
        have hargx : c.toNat / 4096 * 4096 + c.toNat / 64 % 64 * 64 + c.toNat % 64
            = c.toNat := by omega
        rw [henc]
        simp [utf8DecodeOne, ha, hb, hc, hd, hc2.1, hc2.2, hc3.1, hc3.2, harg,
          hargx, hofn]
      · have ha : ¬(240 + c.toNat / 262144 < 128) := by omega
        have hb : ¬(240 + c.toNat / 262144 < 192) := by omega
        have hc : ¬(240 + c.toNat / 262144 < 224) := by omega
        have hd : ¬(240 + c.toNat / 262144 < 240) := by omega
        have hc2 : 128 ≤ 128 + c.toNat / 4096 % 64 ∧ 128 + c.toNat / 4096 % 64 < 192 := by
          omega
        have hc3 : 128 ≤ 128 + c.toNat / 64 % 64 ∧ 128 + c.toNat / 64 % 64 < 192 := by
          omega
        have hc4 : 128 ≤ 128 + c.toNat % 64 ∧ 128 + c.toNat % 64 < 192 := by omega
        have harg : (240 + c.toNat / 262144 - 240) * 262144 +
            (128 + c.toNat / 4096 % 64 - 128) * 4096 +
            (128 + c.toNat / 64 % 64 - 128) * 64 + (128 + c.toNat % 64 - 128)
            = c.toNat := by omega
        have henc : utf8EncodeChar c ++ rest
            = (240 + c.toNat / 262144) :: (128 + c.toNat / 4096 % 64) ::
              (128 + c.toNat / 64 % 64) :: (128 + c.toNat % 64) :: rest := by
          simp [utf8EncodeChar, h1, h2, h3]
        have hargx : c.toNat / 262144 * 262144 + c.toNat / 4096 % 64 * 4096 +
            c.toNat / 64 % 64 * 64 + c.toNat % 64 = c.toNat := by omega
        rw [henc]
        simp [utf8DecodeOne, ha, hb, hc, hd, hc2.1, hc2.2, hc3.1, hc3.2,
          hc4.1, hc4.2, harg, hargx, hofn]

/-- With enough fuel, the fuelled decoder inverts the encoder. -/
theorem utf8DecodeFuel_encode (cs : List Char) (fuel : Nat)
    (hf : (cs.flatMap utf8EncodeChar).length ≤ fuel) :
    utf8DecodeFuel fuel (cs.flatMap utf8EncodeChar) = some cs := by
  induction cs generalizing fuel with
  | nil => cases fuel <;> rfl
  | cons c cs ih =>
    have hne : utf8EncodeChar c ≠ [] := utf8EncodeChar_ne_nil c
    have hbytes : (c :: cs).flatMap utf8EncodeChar
        = utf8EncodeChar c ++ cs.flatMap utf8EncodeChar := by simp
    rw [hbytes] at hf ⊢
    have hlen : 1 ≤ (utf8EncodeChar c).length := by
      cases he : utf8EncodeChar c with
      | nil => exact absurd he hne
      | cons _ _ => simp
    rw [List.length_append] at hf
    cases fuel with
    | zero => omega
    | succ f =>
      have hfr : (cs.flatMap utf8EncodeChar).length ≤ f := by omega
      cases he : utf8EncodeChar c with
      | nil => exact absurd he hne
      | cons b bs =>
        have hone : utf8DecodeOne ((b :: bs) ++ cs.flatMap utf8EncodeChar)
            = some (c, cs.flatMap utf8EncodeChar) := by
          rw [← he]; exact utf8DecodeOne_encodeChar c _
        simp only [List.cons_append] at hone
        simp [utf8DecodeFuel, hone, ih f hfr]

/-- UTF-8 decoding inverts UTF-8 encoding. -/
theorem utf8Decode_utf8Encode (s : String) :
    utf8Decode (utf8Encode s) = some s.data := by
  unfold utf8Decode utf8Encode
  exact utf8DecodeFuel_encode s.data _ le_rfl

/-- The consumer's base64-then-UTF-8 decoding recovers the exact message
that `generate` encoded. -/
theorem decodeMessage_encodeMessage (m : String) :
    decodeMessage (encodeMessage m) = some m := by
  unfold decodeMessage encodeMessage
  have hdata : (String.mk (b64EncodeBytes (utf8Encode m))).data
      = b64EncodeBytes (utf8Encode m) := rfl
  rw [hdata, b64DecodeBytes_encode _ (utf8Encode_lt m)]
  simp [utf8Decode_utf8Encode]

/-! ### Concrete fixtures for witnesses and counterexamples -/

/-- An environment in which every external call succeeds: the PREPROCESSED
cache holds audio `5` for every key, the external process leaves audio `7`
at the output path, and cache save and cleanup succeed. -/
def envOK : Env :=
  { cachePre := fun _ _ => some 5, sfWriteOk := true, launchOk := true,
    procOutput := some 7, saveOk := true, cleanOk := true }

/-- A world with empty scratch directories, an empty OUTPUT cache, and one
voice `voiceA` whose directory holds exactly one weights file and one
config file. -/
def wVoiceA : World :=
  { inputDirFiles := [], outputDirFiles := [], cacheOut := [],
    voices := fun c => if c = "voiceA" then some ["voiceA.pth", "config.yml"] else none,
    launched := [], cacheReads := [], cacheWrites := [], tempWritten := [] }

/-- A fully-populated valid request body: every field of the schema is
present, including the ones the schema leaves optional. -/
def bodyFull : Json :=
  Json.obj [
    ("Inputs", Json.obj [("User Text", Json.str "hello"),
                         ("User Audio", Json.null)]),
    ("Options", Json.obj [
      ("Character", Json.str "voiceA"),
      ("Noise", Json.num (.float ⟨5, 1⟩)),
      ("Style Blend", Json.num (.float ⟨3, 1⟩)),
      ("Diffusion Steps", Json.num (.int 5)),
      ("Embedding Scale", Json.num (.float ⟨10, 1⟩)),
      ("Use Long Form", Json.bool false),
      ("Enable Reference Audio", Json.bool false),
      ("Timbre Reference Blend", Json.num (.float ⟨25, 2⟩)),
      ("Prosody Reference Blend", Json.num (.float ⟨75, 2⟩))]),
    ("Output File", Json.str "out1"),
    ("GPU ID", Json.str "0"),
    ("Session ID", Json.str "s1")]

/-! ### Step lemmas: which parts of the world each pipeline step can touch -/

/-- `prepare_reference_audio` never touches the output folder, the OUTPUT
cache, the launch log, or the write log. -/
theorem prepare_reference_audio_preserves (env : Env) (ih : Option String)
    (en : Bool) (sid : Option String) (w : World) :
    (prepare_reference_audio env ih en sid w).1.outputDirFiles = w.outputDirFiles ∧
    (prepare_reference_audio env ih en sid w).1.cacheOut = w.cacheOut ∧
    (prepare_reference_audio env ih en sid w).1.launched = w.launched ∧
    (prepare_reference_audio env ih en sid w).1.cacheWrites = w.cacheWrites ∧
    (prepare_reference_audio env ih en sid w).1.voices = w.voices := by
  unfold prepare_reference_audio
  rcases ih with _ | h <;> cases en <;> simp
  cases env.cachePre sid h <;> cases env.sfWriteOk <;> simp

/-- `execute_program` never touches the input folder, the caches, the read
log, the write log, or the temp-write log. -/
theorem execute_program_preserves (env : Env) (p : Parsed)
    (ra : Option String) (w : World) :
    (execute_program env p ra w).1.inputDirFiles = w.inputDirFiles ∧
    (execute_program env p ra w).1.cacheOut = w.cacheOut ∧
    (execute_program env p ra w).1.cacheReads = w.cacheReads ∧
    (execute_program env p ra w).1.cacheWrites = w.cacheWrites ∧
    (execute_program env p ra w).1.tempWritten = w.tempWritten := by
  unfold execute_program
  rcases hr : resolveVoice (character_dir p.character) (w.voices p.character)
    with e | ⟨c, st, wt⟩
  · simp [hr]
  · simp only [hr]
    cases env.launchOk
    · simp
    · cases env.procOutput <;> simp

/-- `copy_output` never touches the folders, the launch log, the read log,
or the temp-write log. -/
theorem copy_output_preserves (env : Env) (o : String) (sid : Option String)
    (w : World) :
    (copy_output env o sid w).1.inputDirFiles = w.inputDirFiles ∧
    (copy_output env o sid w).1.outputDirFiles = w.outputDirFiles ∧
    (copy_output env o sid w).1.launched = w.launched ∧
    (copy_output env o sid w).1.cacheReads = w.cacheReads ∧
    (copy_output env o sid w).1.tempWritten = w.tempWritten := by
  unfold copy_output
  cases fsRead w.outputDirFiles (o ++ TEMP_FILE_EXTENSION) <;>
    cases env.saveOk <;> simp

/-- Cleanup only empties the two folders. -/
theorem clean_up_temp_preserves (env : Env) (w : World) :
    (clean_up_temp env w).1.cacheOut = w.cacheOut ∧
    (clean_up_temp env w).1.launched = w.launched ∧
    (clean_up_temp env w).1.cacheReads = w.cacheReads ∧
    (clean_up_temp env w).1.cacheWrites = w.cacheWrites ∧
    (clean_up_temp env w).1.tempWritten = w.tempWritten := by
  unfold clean_up_temp
  cases env.cleanOk <;> simp

/-- The exception handler leaves the world as it found it. -/
theorem handleErr_world (e : Err) (w : World) : (handleErr e w).2 = w := by
  cases e <;> simp [handleErr]

/-- The exception handler answers 400 or 500, never 200. -/
theorem handleErr_code (e : Err) (w : World) :
    (handleErr e w).1.1 = 400 ∨ (handleErr e w).1.1 = 500 := by
  cases e <;> simp [handleErr]

/-- A failing `copy_output` writes nothing to the cache. -/
theorem copy_output_error_preserves (env : Env) (o : String)
    (sid : Option String) (w : World) (e : Err)
    (h : (copy_output env o sid w).2 = .error e) :
    (copy_output env o sid w).1.cacheWrites = w.cacheWrites := by
  unfold copy_output at h ⊢
  cases hf : fsRead w.outputDirFiles (o ++ TEMP_FILE_EXTENSION) <;>
    cases hs : env.saveOk <;> simp_all

/-- A successful `copy_output` stores exactly one entry into the OUTPUT
cache and logs exactly one write. -/
theorem copy_output_ok_shape (env : Env) (o : String) (sid : Option String)
    (w w' : World) (u : Unit) (h : copy_output env o sid w = (w', .ok u)) :
    ∃ a, w' = { w with cacheOut := cacheInsert w.cacheOut sid o a,
                       cacheWrites := w.cacheWrites ++ [(sid, o, a)] } := by
  unfold copy_output at h
  cases hf : fsRead w.outputDirFiles (o ++ TEMP_FILE_EXTENSION) <;>
    cases hs : env.saveOk <;> simp_all
  exact ⟨_, h.symm⟩

/-- A failing cleanup means the cleanup oracle failed. -/
theorem clean_up_temp_error (env : Env) (w : World) (e : Err)
    (h : (clean_up_temp env w).2 = .error e) : env.cleanOk = false := by
  unfold clean_up_temp at h
  cases hc : env.cleanOk <;> simp_all

/-- A successful cleanup empties both scratch folders and changes nothing
else. -/
theorem clean_up_temp_ok_shape (env : Env) (w w' : World) (u : Unit)
    (h : clean_up_temp env w = (w', .ok u)) :
    w' = { w with inputDirFiles := [], outputDirFiles := [] } := by
  unfold clean_up_temp at h
  cases hc : env.cleanOk <;> simp_all

/-- Shape of a 200 response: it can only come from the all-steps-succeeded
branch, so the message is empty, both scratch folders were emptied by the
final cleanup, and exactly one cache write was performed. -/
theorem generateCore_200_shape (env : Env) (body : Json) (w : World)
    (h200 : (generateCore env body w).1.1 = 200) :
    (generateCore env body w).2.inputDirFiles = [] ∧
    (generateCore env body w).2.outputDirFiles = [] ∧
    (generateCore env body w).1.2 = "" ∧
    (generateCore env body w).2.cacheWrites.length = w.cacheWrites.length + 1 := by
  unfold generateCore at h200 ⊢
  rcases hp : parse_inputs body with e | p <;> simp only [hp] at h200 ⊢
  · rcases handleErr_code e w with hc | hc <;> rw [hc] at h200 <;>
      exact absurd h200 (by decide)
  · rcases hpre : prepare_reference_audio env p.inputHash p.enableReferenceAudio
      p.sessionId w with ⟨w1, r1⟩
    have hw1 := prepare_reference_audio_preserves env p.inputHash
      p.enableReferenceAudio p.sessionId w
    rw [hpre] at hw1
    rcases r1 with e1 | ra <;> simp only [hpre] at h200 ⊢
    · rcases handleErr_code e1 w1 with hc | hc <;> rw [hc] at h200 <;>
        exact absurd h200 (by decide)
    · rcases hex : execute_program env p ra w1 with ⟨w2, r2⟩
      have hw2 := execute_program_preserves env p ra w1
      rw [hex] at hw2
      rcases r2 with e2 | u2 <;> simp only [hex] at h200 ⊢
      · rcases handleErr_code e2 w2 with hc | hc <;> rw [hc] at h200 <;>
          exact absurd h200 (by decide)
      · rcases hcp : copy_output env p.outputFile p.sessionId w2 with ⟨w3, r3⟩
        rcases r3 with e3 | u3 <;> simp only [hcp] at h200 ⊢
        · rcases handleErr_code e3 w3 with hc | hc <;> rw [hc] at h200 <;>
            exact absurd h200 (by decide)
        · rcases hcl : clean_up_temp env w3 with ⟨w4, r4⟩
          rcases r4 with e4 | u4 <;> simp only [hcl] at h200 ⊢
          · rcases handleErr_code e4 w4 with hc | hc <;> rw [hc] at h200 <;>
              exact absurd h200 (by decide)
          · obtain ⟨a, hw3⟩ := copy_output_ok_shape env p.outputFile p.sessionId
              w2 w3 u3 hcp
            have hw4 := clean_up_temp_ok_shape env w3 w4 u4 hcl
            subst hw4
            have h21 : w2.cacheWrites = w1.cacheWrites := hw2.2.2.2.1
            have h10 : w1.cacheWrites = w.cacheWrites := hw1.2.2.2.1
            refine ⟨by simp, by simp, by simp, ?_⟩
            simp only [hw3]
            simp [h21, h10]

/-- Shape of a 500 response: either no cache write was performed by the
request, or the write succeeded and the subsequent cleanup step is what
failed. -/
theorem generateCore_500_cacheWrites (env : Env) (body : Json) (w : World)
    (h500 : (generateCore env body w).1.1 = 500) :
    (generateCore env body w).2.cacheWrites = w.cacheWrites ∨
    env.cleanOk = false := by
  unfold generateCore at h500 ⊢
  rcases hp : parse_inputs body with e | p <;> simp only [hp] at h500 ⊢
  · left
    rw [handleErr_world]
  · rcases hpre : prepare_reference_audio env p.inputHash p.enableReferenceAudio
      p.sessionId w with ⟨w1, r1⟩
    have hw1 := prepare_reference_audio_preserves env p.inputHash
      p.enableReferenceAudio p.sessionId w
    rw [hpre] at hw1
    rcases r1 with e1 | ra <;> simp only [hpre] at h500 ⊢
    · left
      rw [handleErr_world]
      exact hw1.2.2.2.1
    · rcases hex : execute_program env p ra w1 with ⟨w2, r2⟩
      have hw2 := execute_program_preserves env p ra w1
      rw [hex] at hw2
      rcases r2 with e2 | u2 <;> simp only [hex] at h500 ⊢
      · left
        rw [handleErr_world]
        rw [hw2.2.2.2.1, hw1.2.2.2.1]
      · rcases hcp : copy_output env p.outputFile p.sessionId w2 with ⟨w3, r3⟩
        rcases r3 with e3 | u3 <;> simp only [hcp] at h500 ⊢
        · left
          rw [handleErr_world]
          have hpres := copy_output_error_preserves env p.outputFile p.sessionId w2 e3
            (by rw [hcp])
          rw [hcp] at hpres
          simp only at hpres
          rw [hpres, hw2.2.2.2.1, hw1.2.2.2.1]
        · rcases hcl : clean_up_temp env w3 with ⟨w4, r4⟩
          rcases r4 with e4 | u4 <;> simp only [hcl] at h500 ⊢
          · right
            exact clean_up_temp_error env w3 e4 (by rw [hcl])
          · exact absurd h500 (by decide)

/-! ### Claim C4 -/

/-- C4: for every request whose JSON body fails schema validation (for
example a missing required field or a range violation such as Style Blend
= 1.5 or Diffusion Steps = 0), the service answers HTTP 400 and the world
is untouched: no external process is invoked and no cache read or write is
performed. -/
theorem C4_invalid_body_400_no_side_effects (env : Env) (body : Json)
    (w : World) (h : validateSchema body = false) :
    (generateCore env body w).1.1 = 400 ∧
    (generateCore env body w).2 = w ∧
    (generateCore env body w).2.launched = w.launched ∧
    (generateCore env body w).2.cacheReads = w.cacheReads ∧
    (generateCore env body w).2.cacheWrites = w.cacheWrites := by
  unfold generateCore parse_inputs
  simp [h, handleErr]

/-- `bodyFull` with Style Blend 1.5 (a range violation). -/
def bodyBadBlend : Json :=
  Json.obj [
    ("Inputs", Json.obj [("User Text", Json.str "hello"),
                         ("User Audio", Json.null)]),
    ("Options", Json.obj [
      ("Character", Json.str "voiceA"),
      ("Noise", Json.num (.float ⟨5, 1⟩)),
      ("Style Blend", Json.num (.float ⟨15, 1⟩)),
      ("Diffusion Steps", Json.num (.int 5)),
      ("Embedding Scale", Json.num (.float ⟨10, 1⟩)),
      ("Use Long Form", Json.bool false),
      ("Enable Reference Audio", Json.bool false),
      ("Timbre Reference Blend", Json.num (.float ⟨25, 2⟩)),
      ("Prosody Reference Blend", Json.num (.float ⟨75, 2⟩))]),
    ("Output File", Json.str "out1"),
    ("GPU ID", Json.str "0"),
    ("Session ID", Json.str "s1")]

/-- `bodyFull` with Diffusion Steps 0 (below the schema minimum). -/
def bodyBadSteps : Json :=
  Json.obj [
    ("Inputs", Json.obj [("User Text", Json.str "hello"),
                         ("User Audio", Json.null)]),
    ("Options", Json.obj [
      ("Character", Json.str "voiceA"),
      ("Noise", Json.num (.float ⟨5, 1⟩)),
      ("Style Blend", Json.num (.float ⟨3, 1⟩)),
      ("Diffusion Steps", Json.num (.int 0)),
      ("Embedding Scale", Json.num (.float ⟨10, 1⟩)),
      ("Use Long Form", Json.bool false),
      ("Enable Reference Audio", Json.bool false),
      ("Timbre Reference Blend", Json.num (.float ⟨25, 2⟩)),
      ("Prosody Reference Blend", Json.num (.float ⟨75, 2⟩))]),
    ("Output File", Json.str "out1"),
    ("GPU ID", Json.str "0"),
    ("Session ID", Json.str "s1")]

/-- Witness for C4: both example violations of the claim (Style Blend =
1.5 and Diffusion Steps = 0) are rejected with 400 and leave the world
untouched, even though every external call would have succeeded. -/
theorem C4_witness :
    validateSchema bodyBadBlend = false ∧
    (generateCore envOK bodyBadBlend wVoiceA).1.1 = 400 ∧
    (generateCore envOK bodyBadBlend wVoiceA).2 = wVoiceA ∧
    validateSchema bodyBadSteps = false ∧
    (generateCore envOK bodyBadSteps wVoiceA).1.1 = 400 ∧
    (generateCore envOK bodyBadSteps wVoiceA).2 = wVoiceA := by
  have h1 := C4_invalid_body_400_no_side_effects envOK bodyBadBlend wVoiceA (by decide)
  have h2 := C4_invalid_body_400_no_side_effects envOK bodyBadSteps wVoiceA (by decide)
  exact ⟨by decide, h1.1, h1.2.1, by decide, h2.1, h2.2.1⟩

/-! ### Claim C1 -/

/-- `wVoiceA` with a leftover file in the temporary input folder (e.g.
from a crashed earlier request; the folders are shared, unkeyed scratch
space). -/
def wDirty : World :=
  { inputDirFiles := [("leftover.wav", 3)], outputDirFiles := [], cacheOut := [],
    voices := fun c => if c = "voiceA" then some ["voiceA.pth", "config.yml"] else none,
    launched := [], cacheReads := [], cacheWrites := [], tempWritten := [] }

/-- C1 counterexample: on a validation failure (here: a body that is not
even a JSON object) the handler runs no cleanup at all — the request ends
with 400 and the temporary input folder still holds its leftover file, so
the directories are not empty after every request and cleanup does not run
on every failure path. -/
theorem C1_counterexample :
    validateSchema Json.null = false ∧
    (generateCore envOK Json.null wDirty).1.1 = 400 ∧
    (generateCore envOK Json.null wDirty).2.inputDirFiles = [("leftover.wav", 3)] :=
  ⟨by decide, by decide, by decide⟩

/-- C1 as amended: on the success path the cleanup does run before the
response is produced, leaving both temporary folders empty; but on a
validation failure (HTTP 400) no cleanup runs — the handler returns with
the world exactly as it found it, so the folders are only empty if they
were already empty when the request arrived. -/
theorem C1_amended_cleanup (env : Env) (body : Json) (w : World) :
    ((generateCore env body w).1.1 = 200 →
      (generateCore env body w).2.inputDirFiles = [] ∧
      (generateCore env body w).2.outputDirFiles = []) ∧
    (validateSchema body = false → (generateCore env body w).2 = w) := by
  constructor
  · intro h200
    exact ⟨(generateCore_200_shape env body w h200).1,
           (generateCore_200_shape env body w h200).2.1⟩
  · intro hv
    unfold generateCore parse_inputs
    simp [hv, handleErr]

/-- Witness for C1 as amended: a fully successful request on `wVoiceA`
ends with both folders empty, and the invalid body of the counterexample
leaves `wDirty` untouched. -/
theorem C1_amended_witness :
    (generateCore envOK bodyFull wVoiceA).2.inputDirFiles = [] ∧
    (generateCore envOK bodyFull wVoiceA).2.outputDirFiles = [] ∧
    (generateCore envOK Json.null wDirty).2 = wDirty :=
  ⟨((C1_amended_cleanup envOK bodyFull wVoiceA).1 (by decide)).1,
   ((C1_amended_cleanup envOK bodyFull wVoiceA).1 (by decide)).2,
   (C1_amended_cleanup envOK Json.null wDirty).2 (by decide)⟩

/-! ### Claim C5 -/

/-- The all-success environment except that the final cleanup raises. -/
def envCleanFail : Env :=
  { cachePre := fun _ _ => some 5, sfWriteOk := true, launchOk := true,
    procOutput := some 7, saveOk := true, cleanOk := false }

/-- C5 counterexample: when every step up to and including the cache write
succeeds but the final `clean_up` call raises, the handler reports HTTP
500 even though the output cache entry has been fully written — a request
can be reported as failed after a successful cache write. -/
theorem C5_counterexample :
    (generateCore envCleanFail bodyFull wVoiceA).1.1 = 500 ∧
    (generateCore envCleanFail bodyFull wVoiceA).2.cacheWrites
      = [(some "s1", "out1", 7)] ∧
    cacheLookup (generateCore envCleanFail bodyFull wVoiceA).2.cacheOut
      (some "s1") "out1" = some 7 :=
  ⟨by decide, by decide, by decide⟩

/-- C5 as amended: a 200 response always comes with exactly one new cache
write, and a 500 response means either that no cache write was performed
by the request, or that the write did land and only the subsequent cleanup
step failed — that cleanup failure is the sole partial-success state. -/
theorem C5_amended_no_partial_success (env : Env) (body : Json) (w : World) :
    ((generateCore env body w).1.1 = 200 →
      (generateCore env body w).2.cacheWrites.length = w.cacheWrites.length + 1) ∧
    ((generateCore env body w).1.1 = 500 →
      (generateCore env body w).2.cacheWrites = w.cacheWrites ∨
      env.cleanOk = false) := by
  exact ⟨fun h200 => (generateCore_200_shape env body w h200).2.2.2,
         fun h500 => generateCore_500_cacheWrites env body w h500⟩

/-- Witness for C5 as amended: applied to the all-success run (one write,
200) and to the cleanup-failure run (500 with the write already landed,
cleanup oracle false). -/
theorem C5_amended_witness :
    (generateCore envOK bodyFull wVoiceA).2.cacheWrites.length
      = wVoiceA.cacheWrites.length + 1 ∧
    ((generateCore envCleanFail bodyFull wVoiceA).2.cacheWrites
      = wVoiceA.cacheWrites ∨ envCleanFail.cleanOk = false) :=
  ⟨(C5_amended_no_partial_success envOK bodyFull wVoiceA).1 (by decide),
   (C5_amended_no_partial_success envCleanFail bodyFull wVoiceA).2 (by decide)⟩

/-! ### Claim C2 -/

/-- The exact end-to-end example request of the claim: the optional fields
`Inputs.User Audio`, `Options.Enable Reference Audio`,
`Options.Timbre Reference Blend` and `Options.Prosody Reference Blend` are
absent, as in the spec's example. -/
def bodyC2Example : Json :=
  Json.obj [
    ("Inputs", Json.obj [("User Text", Json.str "hello")]),
    ("Options", Json.obj [
      ("Character", Json.str "voiceA"),
      ("Noise", Json.num (.float ⟨5, 1⟩)),
      ("Style Blend", Json.num (.float ⟨3, 1⟩)),
      ("Diffusion Steps", Json.num (.int 5)),
      ("Embedding Scale", Json.num (.float ⟨10, 1⟩)),
      ("Use Long Form", Json.bool false)]),
    ("Output File", Json.str "out1"),
    ("GPU ID", Json.str "0"),
    ("Session ID", Json.str "s1")]

/-- C2, evaluated at the claim's own example request: the body passes the
schema (the four fields really are optional there), but the extraction code
then indexes `Inputs['User Audio']` unconditionally, so the request dies
with `KeyError: User Audio`, is answered 500, and neither launches the
external process nor touches the cache — not the claimed 200 run.
Moreover, even with the optional fields supplied (`bodyFull`), the launched
command line contains `--embedding_scale` twice (source lines 176-177
duplicate it) plus the two blend arguments, so the exact argument list the
claim states is not produced. -/
theorem C2_example_request_fails :
    validateSchema bodyC2Example = true ∧
    parse_inputs bodyC2Example = .error (.internal "KeyError: User Audio") ∧
    (generateCore envOK bodyC2Example wVoiceA).1.1 = 500 ∧
    (generateCore envOK bodyC2Example wVoiceA).2 = wVoiceA ∧
    (generateCore envOK bodyFull wVoiceA).2.launched =
      [[PYTHON_EXECUTABLE, INFERENCE_SCRIPT_PATH,
        "--text", "hello",
        "--weights_file", "/root/hay_say/models/styletts_2/voiceA/voiceA.pth",
        "--config_file", "/root/hay_say/models/styletts_2/voiceA/config.yml",
        "--output_filepath", "/root/hay_say/styletts_2/output/out1.wav",
        "--noise", "0.5",
        "--style_blend", "0.3",
        "--diffusion_steps", "5",
        "--embedding_scale", "1.0",
        "--embedding_scale", "1.0",
        "--timbre_ref_blend", "0.25",
        "--prosody_ref_blend", "0.75"]] :=
  ⟨rfl, rfl, rfl, rfl, rfl⟩

/-! ### Claim C3 -/

/-- A schema-valid body omitting exactly one optional field,
`Options.Enable Reference Audio` (all other optional fields present). -/
def bodyNoEnableRef : Json :=
  Json.obj [
    ("Inputs", Json.obj [("User Text", Json.str "hello"),
                         ("User Audio", Json.null)]),
    ("Options", Json.obj [
      ("Character", Json.str "voiceA"),
      ("Noise", Json.num (.float ⟨5, 1⟩)),
      ("Style Blend", Json.num (.float ⟨3, 1⟩)),
      ("Diffusion Steps", Json.num (.int 5)),
      ("Embedding Scale", Json.num (.float ⟨10, 1⟩)),
      ("Use Long Form", Json.bool false),
      ("Timbre Reference Blend", Json.num (.float ⟨25, 2⟩)),
      ("Prosody Reference Blend", Json.num (.float ⟨75, 2⟩))]),
    ("Output File", Json.str "out1"),
    ("GPU ID", Json.str "0"),
    ("Session ID", Json.str "s1")]

/-- C3, evaluated at a body whose only omission is the schema-optional
field `Options.Enable Reference Audio`: the schema accepts it, but the
extraction code indexes the field unconditionally, so the request fails
with `KeyError: Enable Reference Audio` and is answered 500 with no side
effect — the absence of a documented-optional field alone makes the
request fail, contradicting the claim (and the code's own schema). -/
theorem C3_optional_field_omission_fails :
    validateSchema bodyNoEnableRef = true ∧
    parse_inputs bodyNoEnableRef
      = .error (.internal "KeyError: Enable Reference Audio") ∧
    (generateCore envOK bodyNoEnableRef wVoiceA).1.1 = 500 ∧
    (generateCore envOK bodyNoEnableRef wVoiceA).2 = wVoiceA :=
  ⟨rfl, rfl, rfl, rfl⟩

/-! ### Claim C7 -/

/-- Whether an error is a plain internal exception (answered 500) rather
than a `BadInputException` (answered 400). -/
def Err.isInternal : Err → Bool
  | .internal _ => true
  | .badInput _ => false

/-- Internal errors are answered 500. -/
theorem handleErr_code_internal (e : Err) (w : World) (h : e.isInternal = true) :
    (handleErr e w).1.1 = 500 := by
  cases e <;> simp_all [handleErr, Err.isInternal]

/-- File-resolution failures are plain exceptions, not validation errors. -/
theorem gswe_error_internal (d : String) (l : Option (List String))
    (ext : String) (e : Err)
    (h : get_single_file_with_extension d l ext = .error e) :
    e.isInternal = true := by
  rcases l with _ | files
  · simp only [get_single_file_with_extension] at h
    simp at h
    rw [← h]
    rfl
  · simp only [get_single_file_with_extension] at h
    rcases hf : files.filter (fun f => strEndsWith f ext) with _ | ⟨f, rest⟩ <;>
      rw [hf] at h
    · simp at h
      rw [← h]
      rfl
    · rcases rest with _ | ⟨g, r2⟩
      · simp at h
      · simp at h
        rw [← h]
        rfl

/-- Config-file resolution failures are plain exceptions. -/
theorem get_config_file_error_internal (d : String) (l : Option (List String))
    (e : Err) (h : get_config_file d l = .error e) : e.isInternal = true := by
  unfold get_config_file at h
  rcases hc : get_single_file_with_extension d l CONFIG_FILE_EXTENSION with e1 | f1 <;>
    rw [hc] at h
  · exact gswe_error_internal d l CONFIG_FILE_EXTENSION_ALT e h
  · simp at h

/-- Style-file resolution failures are plain exceptions. -/
theorem get_style_file_error_internal (d : String) (l : Option (List String))
    (e : Err) (h : get_style_file d l = .error e) : e.isInternal = true := by
  rcases l with _ | files <;>
    simp only [get_style_file, get_files_with_extension] at h
  · simp at h
    rw [← h]
    rfl
  · simp at h

/-- Voice-resolution failures are plain exceptions. -/
theorem resolveVoice_error_internal (d : String) (l : Option (List String))
    (e : Err) (h : resolveVoice d l = .error e) : e.isInternal = true := by
  unfold resolveVoice at h
  rcases hc : get_config_file d l with e1 | f1 <;> rw [hc] at h
  · simp at h
    rw [← h]
    exact get_config_file_error_internal d l e1 hc
  · rcases hs : get_style_file d l with e2 | f2 <;> rw [hs] at h
    · simp at h
      rw [← h]
      exact get_style_file_error_internal d l e2 hs
    · rcases hw : get_single_file_with_extension d l WEIGHTS_FILE_EXTENSION
        with e3 | f3 <;> rw [hw] at h <;> simp at h
      rw [← h]
      exact gswe_error_internal d l WEIGHTS_FILE_EXTENSION e3 hw

/-- Reference-audio preparation failures are plain exceptions. -/
theorem prepare_error_internal (env : Env) (ih : Option String) (en : Bool)
    (sid : Option String) (w : World) (e : Err)
    (h : (prepare_reference_audio env ih en sid w).2 = .error e) :
    e.isInternal = true := by
  rcases ih with _ | hh <;> cases en <;>
    simp only [prepare_reference_audio] at h <;> try simp at h
  rcases hc : env.cachePre sid hh with _ | a <;> rw [hc] at h
  · simp at h
    rw [← h]
    rfl
  · cases hw : env.sfWriteOk <;> rw [hw] at h <;> simp at h
    rw [← h]
    rfl

/-- When voice resolution fails, `execute_program` propagates exactly that
failure without touching the world. -/
theorem execute_program_resolve_error (env : Env) (p : Parsed)
    (ra : Option String) (w : World) (er : Err)
    (h : resolveVoice (character_dir p.character) (w.voices p.character) = .error er) :
    execute_program env p ra w = (w, .error er) := by
  unfold execute_program
  simp [h]

/-- `wVoiceA` with a second voice `voiceB` whose directory holds two
`.yml` files, one `.yaml` file, and one weights file. -/
def wAmbig : World :=
  { inputDirFiles := [], outputDirFiles := [], cacheOut := [],
    voices := fun c =>
      if c = "voiceB" then some ["a.yml", "b.yml", "c.yaml", "w.pth"] else none,
    launched := [], cacheReads := [], cacheWrites := [], tempWritten := [] }

/-- `bodyFull` with Character `voiceB`. -/
def bodyVoiceB : Json :=
  Json.obj [
    ("Inputs", Json.obj [("User Text", Json.str "hello"),
                         ("User Audio", Json.null)]),
    ("Options", Json.obj [
      ("Character", Json.str "voiceB"),
      ("Noise", Json.num (.float ⟨5, 1⟩)),
      ("Style Blend", Json.num (.float ⟨3, 1⟩)),
      ("Diffusion Steps", Json.num (.int 5)),
      ("Embedding Scale", Json.num (.float ⟨10, 1⟩)),
      ("Use Long Form", Json.bool false),
      ("Enable Reference Audio", Json.bool false),
      ("Timbre Reference Blend", Json.num (.float ⟨25, 2⟩)),
      ("Prosody Reference Blend", Json.num (.float ⟨75, 2⟩))]),
    ("Output File", Json.str "out1"),
    ("GPU ID", Json.str "0"),
    ("Session ID", Json.str "s1")]

/-- C7 counterexample: `voiceB`'s directory holds two `.yml` candidates —
ambiguous for the config extension, which per the claim must fail the
request with 500 and no cache write — yet `get_config_file` swallows the
ambiguity and falls back to the single `.yaml` file, the request succeeds
with 200, and the cache entry is written. -/
theorem C7_counterexample :
    (wAmbig.voices "voiceB").map
      (fun fs => (fs.filter (fun f => strEndsWith f CONFIG_FILE_EXTENSION)).length)
      = some 2 ∧
    resolveVoice (character_dir "voiceB") (wAmbig.voices "voiceB")
      = .ok ("/root/hay_say/models/styletts_2/voiceB/c.yaml", none,
             "/root/hay_say/models/styletts_2/voiceB/w.pth") ∧
    (generateCore envOK bodyVoiceB wAmbig).1.1 = 200 ∧
    cacheLookup (generateCore envOK bodyVoiceB wAmbig).2.cacheOut
      (some "s1") "out1" = some 7 :=
  ⟨rfl, rfl, rfl, rfl⟩

/-- C7 as amended: voice resolution fails exactly when the character
directory is missing, or the weights candidates are not exactly one, or
the config candidates are not exactly one for `.yml` AND not exactly one
for `.yaml` (so `.yml` ambiguity alone is healed by a unique `.yaml`
fallback); and whenever resolution fails for the requested character, the
request is answered 500 and performs no cache write. -/
theorem C7_amended_voice_resolution (env : Env) (body : Json) (w : World)
    (p : Parsed) (dirPath : String) (files : List String) :
    ((resolveVoice dirPath none).isOk = false) ∧
    ((resolveVoice dirPath (some files)).isOk = false ↔
      (((files.filter (fun f => strEndsWith f CONFIG_FILE_EXTENSION)).length ≠ 1 ∧
        (files.filter (fun f => strEndsWith f CONFIG_FILE_EXTENSION_ALT)).length ≠ 1) ∨
       (files.filter (fun f => strEndsWith f WEIGHTS_FILE_EXTENSION)).length ≠ 1)) ∧
    (parse_inputs body = .ok p →
     (resolveVoice (character_dir p.character) (w.voices p.character)).isOk = false →
     (generateCore env body w).1.1 = 500 ∧
     (generateCore env body w).2.cacheWrites = w.cacheWrites) := by
  refine ⟨rfl, ?_, ?_⟩
  · unfold resolveVoice get_config_file get_style_file
      get_files_with_extension get_single_file_with_extension
    rcases h1 : files.filter (fun f => strEndsWith f CONFIG_FILE_EXTENSION)
      with _ | ⟨c1, cr⟩
    · rcases h2 : files.filter (fun f => strEndsWith f CONFIG_FILE_EXTENSION_ALT)
        with _ | ⟨a1, ar⟩
      · simp [Except.isOk, Except.toBool, h1, h2]
      · rcases ar with _ | _
        · rcases h3 : files.filter (fun f => strEndsWith f WEIGHTS_FILE_EXTENSION)
            with _ | ⟨w1, wr⟩
          · simp [Except.isOk, Except.toBool, h1, h2, h3]
          · rcases wr with _ | _ <;> simp [Except.isOk, Except.toBool, h1, h2, h3]
        · simp [Except.isOk, Except.toBool, h1, h2]
    · rcases cr with _ | _
      · rcases h3 : files.filter (fun f => strEndsWith f WEIGHTS_FILE_EXTENSION)
          with _ | ⟨w1, wr⟩
        · simp [Except.isOk, Except.toBool, h1, h3]
        · rcases wr with _ | _ <;> simp [Except.isOk, Except.toBool, h1, h3]
      · rcases h2 : files.filter (fun f => strEndsWith f CONFIG_FILE_EXTENSION_ALT)
          with _ | ⟨a1, ar⟩
        · simp [Except.isOk, Except.toBool, h1, h2]
        · rcases ar with _ | _
          · rcases h3 : files.filter (fun f => strEndsWith f WEIGHTS_FILE_EXTENSION)
              with _ | ⟨w1, wr⟩
            · simp [Except.isOk, Except.toBool, h1, h2, h3]
            · rcases wr with _ | _ <;> simp [Except.isOk, Except.toBool, h1, h2, h3]
          · simp [Except.isOk, Except.toBool, h1, h2]
  · intro hp hres
    unfold generateCore
    simp only [hp]
    rcases hpre : prepare_reference_audio env p.inputHash p.enableReferenceAudio
      p.sessionId w with ⟨w1, r1⟩
    have hw1 := prepare_reference_audio_preserves env p.inputHash
      p.enableReferenceAudio p.sessionId w
    rw [hpre] at hw1
    have h1w : w1.cacheWrites = w.cacheWrites := hw1.2.2.2.1
    have h1v : w1.voices = w.voices := hw1.2.2.2.2
    rcases r1 with e1 | ra <;> simp only [hpre]
    · have hei : e1.isInternal = true :=
        prepare_error_internal env p.inputHash p.enableReferenceAudio
          p.sessionId w e1 (by rw [hpre])
      exact ⟨handleErr_code_internal e1 w1 hei, by rw [handleErr_world]; exact h1w⟩
    · rcases hre : resolveVoice (character_dir p.character) (w.voices p.character)
        with er | vals
      · have hexeq : execute_program env p ra w1 = (w1, .error er) := by
          have := execute_program_resolve_error env p ra w1 er (by rw [h1v, hre])
          exact this
        simp only [hexeq]
        have hei : er.isInternal = true :=
          resolveVoice_error_internal (character_dir p.character)
            (w.voices p.character) er hre
        exact ⟨handleErr_code_internal er w1 hei, by rw [handleErr_world]; exact h1w⟩
      · rw [hre] at hres
        simp [Except.isOk, Except.toBool] at hres

/-- Witness for C7 as amended: a voice directory with zero weights files
fails resolution and the full request on it is answered 500 with no cache
write. -/
theorem C7_amended_witness :
    (resolveVoice (character_dir "voiceB") (some ["a.yml", "b.yml", "c.yaml"])).isOk
      = false ∧
    (generateCore envOK bodyVoiceB
      { wAmbig with voices := fun c =>
          if c = "voiceB" then some ["a.yml", "b.yml", "c.yaml"] else none }).1.1
      = 500 ∧
    (generateCore envOK bodyVoiceB
      { wAmbig with voices := fun c =>
          if c = "voiceB" then some ["a.yml", "b.yml", "c.yaml"] else none }).2.cacheWrites
      = [] := by
  have h := C7_amended_voice_resolution envOK bodyVoiceB
    { wAmbig with voices := fun c =>
        if c = "voiceB" then some ["a.yml", "b.yml", "c.yaml"] else none }
    { userText := "hello", character := "voiceB", noise := .float ⟨5, 1⟩,
      styleBlend := .float ⟨3, 1⟩, diffusionSteps := .int 5,
      embeddingScale := .float ⟨10, 1⟩, useLongForm := false, inputHash := none,
      enableReferenceAudio := false, timbreRefBlend := .float ⟨25, 2⟩,
      prosodyRefBlend := .float ⟨75, 2⟩, outputFile := "out1",
      gpuId := Json.str "0", sessionId := some "s1" }
    (character_dir "voiceB") ["a.yml", "b.yml", "c.yaml"]
  have hres := h.2.2 rfl rfl
  exact ⟨rfl, hres.1, hres.2⟩

/-! ### Claim C6 -/

/-- Membership in the truthiness-filtered list: the entry was present and
is a nonempty string. -/
theorem mem_truthyFilter (x : String) (l : List (Option String)) :
    x ∈ truthyFilter l ↔ some x ∈ l ∧ x ≠ "" := by
  unfold truthyFilter
  rw [List.mem_filterMap]
  constructor
  · rintro ⟨a, ha, hfa⟩
    rcases a with _ | s
    · simp at hfa
    · by_cases hs : s = ""
      · simp [hs] at hfa
      · simp [hs] at hfa
        subst hfa
        exact ⟨ha, hs⟩
  · rintro ⟨hmem, hne⟩
    exact ⟨some x, hmem, by simp [hne]⟩

/-- Every entry of the raw argument list is a known flag, the
reference-audio flag (only when reference audio is enabled), the
reference-style flag (only when reference audio is disabled), or one of
the value strings supplied by the caller. -/
theorem rawArguments_values (x : String) (ut weights config outPath : String)
    (n sb ds es : Option String) (ulf : Bool) (ra : Option String) (era : Bool)
    (sf : Option String) (t pr : Option String)
    (h : some x ∈ rawArguments ut weights config outPath n sb ds es ulf ra era
      sf t pr) :
    x ∈ ["--text", "--weights_file", "--config_file", "--output_filepath",
         "--noise", "--style_blend", "--diffusion_steps", "--embedding_scale",
         "--use_long_form", "--timbre_ref_blend", "--prosody_ref_blend"] ∨
    (x = "--reference_audio" ∧ era = true) ∨
    (x = "--reference_style" ∧ era = false) ∨
    x ∈ [ut, weights, config, outPath] ++ n.toList ++ sb.toList ++ ds.toList ++
      es.toList ++ ra.toList ++ sf.toList ++ t.toList ++ pr.toList := by
  simp only [rawArguments, List.append_assoc, List.mem_append] at h
  rcases h with h | h | h | h | h | h | h | h | h | h | h
  · simp at h
    rcases h with h | h | h | h | h | h | h | h <;> subst h <;> simp
  · rcases n with _ | v <;> simp [optArgPair] at h
    rcases h with h | h <;> subst h <;> simp
  · rcases sb with _ | v <;> simp [optArgPair] at h
    rcases h with h | h <;> subst h <;> simp
  · rcases ds with _ | v <;> simp [optArgPair] at h
    rcases h with h | h <;> subst h <;> simp
  · rcases es with _ | v <;> simp [optArgPair] at h
    rcases h with h | h <;> subst h <;> simp
  · rcases es with _ | v <;> simp [optArgPair] at h
    rcases h with h | h <;> subst h <;> simp
  · cases ulf <;> simp at h
    subst h
    simp
  · cases era <;> simp at h
    rcases h with h | h
    · subst h
      simp
    · rcases ra with _ | v <;> simp at h
      subst h
      simp
  · rcases sf with _ | v <;> cases era <;> simp at h
    by_cases hv : v = "" <;> simp [hv] at h
    rcases h with h | h <;> subst h <;> simp
  · rcases t with _ | v <;> simp [optArgPair] at h
    rcases h with h | h <;> subst h <;> simp
  · rcases pr with _ | v <;> simp [optArgPair] at h
    rcases h with h | h <;> subst h <;> simp

/-- C6: in any single invocation the reference-audio argument and the
default style-file argument are never both present: the builder emits
`--reference_audio` only when reference audio is enabled and
`--reference_style` only when it is disabled.  (The hypothesis excludes
the degenerate case of a caller-supplied value string that is itself
spelled like one of the two flags.) -/
theorem C6_reference_audio_style_exclusive (ut weights config outPath : String)
    (n sb ds es : Option String) (ulf : Bool) (ra : Option String) (era : Bool)
    (sf : Option String) (t pr : Option String)
    (hvals : ∀ s ∈ [ut, weights, config, outPath] ++ n.toList ++ sb.toList ++
      ds.toList ++ es.toList ++ ra.toList ++ sf.toList ++ t.toList ++ pr.toList,
      s ≠ "--reference_audio" ∧ s ≠ "--reference_style") :
    ¬("--reference_audio" ∈ buildArguments ut weights config outPath n sb ds es
        ulf ra era sf t pr ∧
      "--reference_style" ∈ buildArguments ut weights config outPath n sb ds es
        ulf ra era sf t pr) := by
  rintro ⟨hra, hrs⟩
  simp only [buildArguments] at hra hrs
  rw [mem_truthyFilter] at hra hrs
  have hva := rawArguments_values "--reference_audio" ut weights config outPath
    n sb ds es ulf ra era sf t pr hra.1
  have hvs := rawArguments_values "--reference_style" ut weights config outPath
    n sb ds es ulf ra era sf t pr hrs.1
  rcases hva with hva | hva | hva | hva
  · simp at hva
  · rcases hvs with hvs | hvs | hvs | hvs
    · simp at hvs
    · simp at hvs
    · rw [hva.2] at hvs
      exact absurd hvs.2 (by simp)
    · exact absurd rfl (hvals _ hvs).2
  · simp at hva
  · exact absurd rfl (hvals _ hva).1

/-- Witness for C6: the argument lists of a plain run and a
reference-audio run, with ordinary values, never contain both flags. -/
theorem C6_witness :
    ¬("--reference_audio" ∈ buildArguments "hello" "/w.pth" "/c.yml" "/o.wav"
        (some "0.5") (some "0.3") (some "5") (some "1.0") false none false
        (some "/s.json") (some "0.25") (some "0.75") ∧
      "--reference_style" ∈ buildArguments "hello" "/w.pth" "/c.yml" "/o.wav"
        (some "0.5") (some "0.3") (some "5") (some "1.0") false none false
        (some "/s.json") (some "0.25") (some "0.75")) :=
  C6_reference_audio_style_exclusive "hello" "/w.pth" "/c.yml" "/o.wav"
    (some "0.5") (some "0.3") (some "5") (some "1.0") false none false
    (some "/s.json") (some "0.25") (some "0.75") (by decide)

/-! ### Claims C9 and C10: argument-list shapes -/

/-- A successfully parsed body passed schema validation. -/
theorem parse_ok_validate (body : Json) (p : Parsed)
    (hp : parse_inputs body = .ok p) : validateSchema body = true := by
  by_cases hv : validateSchema body
  · exact hv
  · unfold parse_inputs at hp
    simp [hv] at hp

/-- Joined paths are never the empty string. -/
theorem pathJoin_ne_empty (a b : String) : pathJoin a b ≠ "" := by
  intro h
  have hlen : (pathJoin a b).length = 0 := by rw [h]; rfl
  simp [pathJoin, String.length_append] at hlen
  exact absurd hlen.1.2 (by decide)

/-- A successfully resolved single file is a path inside the directory. -/
theorem gswe_ok_pathJoin (d : String) (l : Option (List String)) (ext f : String)
    (h : get_single_file_with_extension d l ext = .ok f) :
    ∃ name, f = pathJoin d name := by
  rcases l with _ | files <;> simp only [get_single_file_with_extension] at h
  · simp at h
  · rcases hf : files.filter (fun x => strEndsWith x ext) with _ | ⟨g, rest⟩ <;>
      rw [hf] at h
    · simp at h
    · rcases rest with _ | _ <;> simp at h
      exact ⟨g, h.symm⟩

/-- A successfully resolved config file is a path inside the directory. -/
theorem get_config_file_ok_pathJoin (d : String) (l : Option (List String))
    (f : String) (h : get_config_file d l = .ok f) :
    ∃ name, f = pathJoin d name := by
  unfold get_config_file at h
  rcases hc : get_single_file_with_extension d l CONFIG_FILE_EXTENSION
    with e1 | f1 <;> rw [hc] at h
  · exact gswe_ok_pathJoin d l CONFIG_FILE_EXTENSION_ALT f h
  · simp at h
    rw [← h]
    exact gswe_ok_pathJoin d l CONFIG_FILE_EXTENSION f1 hc

/-- A successful voice resolution yields config and weights paths inside
the character directory. -/
theorem resolveVoice_ok_shape (d : String) (l : Option (List String))
    (config : String) (style : Option String) (weights : String)
    (h : resolveVoice d l = .ok (config, style, weights)) :
    (∃ name, config = pathJoin d name) ∧ (∃ name, weights = pathJoin d name) := by
  unfold resolveVoice at h
  rcases hc : get_config_file d l with e1 | f1 <;> rw [hc] at h
  · simp at h
  · rcases hs : get_style_file d l with e2 | f2 <;> rw [hs] at h
    · simp at h
    · rcases hw : get_single_file_with_extension d l WEIGHTS_FILE_EXTENSION
        with e3 | f3 <;> rw [hw] at h
      · simp at h
      · simp at h
        obtain ⟨h1, -, h3⟩ := h
        constructor
        · rw [← h1]
          exact get_config_file_ok_pathJoin d l f1 hc
        · rw [← h3]
          exact gswe_ok_pathJoin d l WEIGHTS_FILE_EXTENSION f3 hw

/-- Every command line in the final world's launch log was either already
launched before the request, or is the one command this request launched:
the inference executable applied to the argument list built from the
parsed request, the prepared reference audio, and the resolved voice
files. -/
theorem generateCore_launched (env : Env) (body : Json) (w : World) :
    ∀ l ∈ (generateCore env body w).2.launched, l ∈ w.launched ∨
    ∃ p w1 ra config style weights,
      parse_inputs body = .ok p ∧
      prepare_reference_audio env p.inputHash p.enableReferenceAudio p.sessionId w
        = (w1, .ok ra) ∧
      resolveVoice (character_dir p.character) (w.voices p.character)
        = .ok (config, style, weights) ∧
      l = inferenceCommand p config style weights ra := by
  intro l hl
  unfold generateCore at hl
  rcases hp : parse_inputs body with e | p <;> simp only [hp] at hl
  · rw [handleErr_world] at hl
    exact Or.inl hl
  · rcases hpre : prepare_reference_audio env p.inputHash p.enableReferenceAudio
      p.sessionId w with ⟨w1, r1⟩
    have hw1 := prepare_reference_audio_preserves env p.inputHash
      p.enableReferenceAudio p.sessionId w
    rw [hpre] at hw1
    have h1l : w1.launched = w.launched := hw1.2.2.1
    have h1v : w1.voices = w.voices := hw1.2.2.2.2
    rcases r1 with e1 | ra <;> simp only [hpre] at hl
    · rw [handleErr_world, h1l] at hl
      exact Or.inl hl
    · rcases hex : execute_program env p ra w1 with ⟨w2, r2⟩
      -- the launch log of w2
      have hlaunch : ∀ x ∈ w2.launched, x ∈ w1.launched ∨
          ∃ config style weights,
            resolveVoice (character_dir p.character) (w1.voices p.character)
              = .ok (config, style, weights) ∧
            x = inferenceCommand p config style weights ra := by
        intro x hx
        unfold execute_program at hex
        rcases hr : resolveVoice (character_dir p.character) (w1.voices p.character)
          with er | ⟨config, style, weights⟩ <;> rw [hr] at hex
        · simp at hex
          rw [← hex.1] at hx
          exact Or.inl hx
        · cases hok : env.launchOk <;> rw [hok] at hex <;> simp at hex
          · rw [← hex.1] at hx
            exact Or.inl hx
          · rcases hpo : env.procOutput with _ | a <;> rw [hpo] at hex <;>
              simp at hex
            · rw [← hex.1] at hx
              simp at hx
              rcases hx with hx | hx
              · exact Or.inl hx
              · exact Or.inr ⟨config, style, weights, rfl, hx⟩
            · rw [← hex.1] at hx
              simp at hx
              rcases hx with hx | hx
              · exact Or.inl hx
              · exact Or.inr ⟨config, style, weights, rfl, hx⟩
      have hfin : l ∈ w2.launched := by
        rcases r2 with e2 | u2 <;> simp only [hex] at hl
        · rw [handleErr_world] at hl
          exact hl
        · rcases hcp : copy_output env p.outputFile p.sessionId w2 with ⟨w3, r3⟩
          have hw3 := copy_output_preserves env p.outputFile p.sessionId w2
          rw [hcp] at hw3
          have h3l : w3.launched = w2.launched := hw3.2.2.1
          rcases r3 with e3 | u3 <;> simp only [hcp] at hl
          · rw [handleErr_world, h3l] at hl
            exact hl
          · rcases hcl : clean_up_temp env w3 with ⟨w4, r4⟩
            have hw4 := clean_up_temp_preserves env w3
            rw [hcl] at hw4
            have h4l : w4.launched = w3.launched := hw4.2.1
            rcases r4 with e4 | u4 <;> simp only [hcl] at hl
            · rw [handleErr_world, h4l, h3l] at hl
              exact hl
            · rw [h4l, h3l] at hl
              exact hl
      rcases hlaunch l hfin with hx | ⟨config, style, weights, hr, hx⟩
      · rw [h1l] at hx
        exact Or.inl hx
      · rw [h1v] at hr
        exact Or.inr ⟨p, w1, ra, config, style, weights, rfl, hpre, hr, hx⟩

/-- The truthiness filter distributes over list append. -/
theorem truthyFilter_append (l1 l2 : List (Option String)) :
    truthyFilter (l1 ++ l2) = truthyFilter l1 ++ truthyFilter l2 := by
  unfold truthyFilter
  exact List.filterMap_append l1 l2 _

/-- With empty user text the truthiness filter drops the `--text` value, so
the argument list starts with the bare `--text` flag immediately followed
by `--weights_file` (the paths after it are nonempty). -/
theorem buildArguments_empty_text (weights config outPath : String)
    (n sb ds es : Option String) (ulf : Bool) (ra : Option String) (era : Bool)
    (sf : Option String) (t pr : Option String)
    (hw : weights ≠ "") (hc : config ≠ "") (ho : outPath ≠ "") :
    ∃ suf, buildArguments "" weights config outPath n sb ds es ulf ra era sf t pr
      = "--text" :: "--weights_file" :: weights :: "--config_file" :: config ::
        "--output_filepath" :: outPath :: suf := by
  refine ⟨truthyFilter (optArgPair "--noise" n ++ optArgPair "--style_blend" sb ++
    optArgPair "--diffusion_steps" ds ++ optArgPair "--embedding_scale" es ++
    optArgPair "--embedding_scale" es ++
    (if ulf then [some "--use_long_form"] else [none]) ++
    (if era then [some "--reference_audio", ra] else [none, none]) ++
    (match sf, era with
     | some s, false => if s = "" then [none, none]
                        else [some "--reference_style", some s]
     | _, _ => [none, none]) ++
    optArgPair "--timbre_ref_blend" t ++ optArgPair "--prosody_ref_blend" pr), ?_⟩
  unfold buildArguments rawArguments
  simp only [List.append_assoc, truthyFilter_append]
  rw [show truthyFilter [some "--text", some "", some "--weights_file", some weights,
      some "--config_file", some config, some "--output_filepath", some outPath]
      = ["--text", "--weights_file", weights, "--config_file", config,
         "--output_filepath", outPath] from by simp [truthyFilter, hw, hc, ho]]
  simp [truthyFilter_append]

/-- When reference audio is enabled but no reference file was prepared,
the argument list contains the bare `--reference_audio` flag immediately
followed by the `--timbre_ref_blend` flag: the `None` value is filtered
out while the flag is kept, and the style file is suppressed. -/
theorem buildArguments_bare_reference_audio (ut weights config outPath : String)
    (n sb ds es : Option String) (ulf : Bool) (sf : Option String)
    (ts : String) (pr : Option String) :
    ∃ pre suf,
      buildArguments ut weights config outPath n sb ds es ulf none true sf
        (some ts) pr
        = pre ++ "--reference_audio" :: "--timbre_ref_blend" :: suf := by
  refine ⟨truthyFilter ([some "--text", some ut, some "--weights_file",
      some weights, some "--config_file", some config, some "--output_filepath",
      some outPath] ++ optArgPair "--noise" n ++ optArgPair "--style_blend" sb ++
      optArgPair "--diffusion_steps" ds ++ optArgPair "--embedding_scale" es ++
      optArgPair "--embedding_scale" es ++
      (if ulf then [some "--use_long_form"] else [none])),
    truthyFilter ([some ts] ++ optArgPair "--prosody_ref_blend" pr), ?_⟩
  unfold buildArguments
  have hraw : rawArguments ut weights config outPath n sb ds es ulf none true sf
      (some ts) pr
      = ([some "--text", some ut, some "--weights_file", some weights,
          some "--config_file", some config, some "--output_filepath",
          some outPath] ++ optArgPair "--noise" n ++
          optArgPair "--style_blend" sb ++ optArgPair "--diffusion_steps" ds ++
          optArgPair "--embedding_scale" es ++ optArgPair "--embedding_scale" es ++
          (if ulf then [some "--use_long_form"] else [none])) ++
        ([some "--reference_audio", none] ++ ([none, none] ++
          ([some "--timbre_ref_blend"] ++
            ([some ts] ++ optArgPair "--prosody_ref_blend" pr)))) := by
    rcases sf with _ | sv <;> simp [rawArguments, optArgPair, List.append_assoc]
  rw [hraw]
  simp only [truthyFilter_append]
  rw [show truthyFilter [some "--reference_audio", none] = ["--reference_audio"]
      from rfl,
    show truthyFilter [none, none] = ([] : List String) from rfl,
    show truthyFilter [some "--timbre_ref_blend"] = ["--timbre_ref_blend"]
      from rfl]
  simp

/-- `generateCore` performs no PREPROCESSED cache read and writes no
temporary file when the request carries no reference item identifier. -/
theorem generateCore_reads_temp (env : Env) (body : Json) (w : World)
    (p : Parsed) (hp : parse_inputs body = .ok p) (hih : p.inputHash = none) :
    (generateCore env body w).2.cacheReads = w.cacheReads ∧
    (generateCore env body w).2.tempWritten = w.tempWritten := by
  unfold generateCore
  simp only [hp]
  have hprep : prepare_reference_audio env p.inputHash p.enableReferenceAudio
      p.sessionId w = (w, .ok none) := by
    rw [hih]
    rfl
  simp only [hprep]
  rcases hex : execute_program env p none w with ⟨w2, r2⟩
  have hw2 := execute_program_preserves env p none w
  rw [hex] at hw2
  have h2r : w2.cacheReads = w.cacheReads := hw2.2.2.1
  have h2t : w2.tempWritten = w.tempWritten := hw2.2.2.2.2
  rcases r2 with e2 | u2 <;> simp only [hex]
  · rw [handleErr_world]
    exact ⟨h2r, h2t⟩
  · rcases hcp : copy_output env p.outputFile p.sessionId w2 with ⟨w3, r3⟩
    have hw3 := copy_output_preserves env p.outputFile p.sessionId w2
    rw [hcp] at hw3
    have h3r : w3.cacheReads = w2.cacheReads := hw3.2.2.2.1
    have h3t : w3.tempWritten = w2.tempWritten := hw3.2.2.2.2
    rcases r3 with e3 | u3 <;> simp only [hcp]
    · rw [handleErr_world]
      exact ⟨h3r.trans h2r, h3t.trans h2t⟩
    · rcases hcl : clean_up_temp env w3 with ⟨w4, r4⟩
      have hw4 := clean_up_temp_preserves env w3
      rw [hcl] at hw4
      have h4r : w4.cacheReads = w3.cacheReads := hw4.2.2.1
      have h4t : w4.tempWritten = w3.tempWritten := hw4.2.2.2.2
      rcases r4 with e4 | u4 <;> simp only [hcl]
      · rw [handleErr_world]
        exact ⟨(h4r.trans h3r).trans h2r, (h4t.trans h3t).trans h2t⟩
      · exact ⟨(h4r.trans h3r).trans h2r, (h4t.trans h3t).trans h2t⟩

/-! ### Claim C9 -/

/-- `bodyFull` with empty User Text. -/
def bodyEmptyText : Json :=
  Json.obj [
    ("Inputs", Json.obj [("User Text", Json.str ""),
                         ("User Audio", Json.null)]),
    ("Options", Json.obj [
      ("Character", Json.str "voiceA"),
      ("Noise", Json.num (.float ⟨5, 1⟩)),
      ("Style Blend", Json.num (.float ⟨3, 1⟩)),
      ("Diffusion Steps", Json.num (.int 5)),
      ("Embedding Scale", Json.num (.float ⟨10, 1⟩)),
      ("Use Long Form", Json.bool false),
      ("Enable Reference Audio", Json.bool false),
      ("Timbre Reference Blend", Json.num (.float ⟨25, 2⟩)),
      ("Prosody Reference Blend", Json.num (.float ⟨75, 2⟩))]),
    ("Output File", Json.str "out1"),
    ("GPU ID", Json.str "0"),
    ("Session ID", Json.str "s1")]

/-- C9 counterexample: a request with empty User Text passes the schema
(the schema has no `minLength`), is fully processed — the external process
is launched and the request succeeds with 200 — and the truthiness filter
even drops the empty string, so the process receives a bare `--text` flag
with `--weights_file` as the next token. -/
theorem C9_counterexample :
    validateSchema bodyEmptyText = true ∧
    (generateCore envOK bodyEmptyText wVoiceA).1.1 = 200 ∧
    (generateCore envOK bodyEmptyText wVoiceA).2.launched =
      [[PYTHON_EXECUTABLE, INFERENCE_SCRIPT_PATH,
        "--text",
        "--weights_file", "/root/hay_say/models/styletts_2/voiceA/voiceA.pth",
        "--config_file", "/root/hay_say/models/styletts_2/voiceA/config.yml",
        "--output_filepath", "/root/hay_say/styletts_2/output/out1.wav",
        "--noise", "0.5",
        "--style_blend", "0.3",
        "--diffusion_steps", "5",
        "--embedding_scale", "1.0",
        "--embedding_scale", "1.0",
        "--timbre_ref_blend", "0.25",
        "--prosody_ref_blend", "0.75"]] :=
  ⟨rfl, rfl, rfl⟩

/-- C9 as amended: empty User Text is not rejected — such a request passes
validation and is processed; in any command line it launches, the empty
text value is dropped by the truthiness filter, leaving the bare `--text`
flag immediately followed by `--weights_file`. -/
theorem C9_amended_empty_text (env : Env) (body : Json) (w : World) (p : Parsed)
    (hp : parse_inputs body = .ok p) (ht : p.userText = "") :
    validateSchema body = true ∧
    ∀ l ∈ (generateCore env body w).2.launched, l ∈ w.launched ∨
      ∃ suf, l = PYTHON_EXECUTABLE :: INFERENCE_SCRIPT_PATH :: "--text" ::
        "--weights_file" :: suf := by
  refine ⟨parse_ok_validate body p hp, ?_⟩
  intro l hl
  rcases generateCore_launched env body w l hl
    with h | ⟨p', w1, ra, config, style, weights, hp', hpre, hr, hcmd⟩
  · exact Or.inl h
  · rw [hp] at hp'
    injection hp' with hpp
    subst hpp
    right
    obtain ⟨⟨nc, hnc⟩, ⟨nw, hnw⟩⟩ := resolveVoice_ok_shape _ _ _ _ _ hr
    obtain ⟨suf, hargs⟩ := buildArguments_empty_text weights config
      (pathJoin OUTPUT_COPY_FOLDER (p.outputFile ++ TEMP_FILE_EXTENSION))
      (some (pyStr p.noise)) (some (pyStr p.styleBlend))
      (some (pyStr p.diffusionSteps)) (some (pyStr p.embeddingScale))
      p.useLongForm ra p.enableReferenceAudio style
      (some (pyStr p.timbreRefBlend)) (some (pyStr p.prosodyRefBlend))
      (by rw [hnw]; exact pathJoin_ne_empty _ _)
      (by rw [hnc]; exact pathJoin_ne_empty _ _)
      (pathJoin_ne_empty _ _)
    refine ⟨weights :: "--config_file" :: config :: "--output_filepath" ::
      pathJoin OUTPUT_COPY_FOLDER (p.outputFile ++ TEMP_FILE_EXTENSION) :: suf, ?_⟩
    rw [hcmd]
    unfold inferenceCommand
    rw [ht, hargs]

/-- Witness for C9 as amended: the concrete empty-text request instantiates
both conclusions. -/
theorem C9_amended_witness :
    validateSchema bodyEmptyText = true ∧
    ∀ l ∈ (generateCore envOK bodyEmptyText wVoiceA).2.launched,
      l ∈ wVoiceA.launched ∨ ∃ suf, l = PYTHON_EXECUTABLE ::
        INFERENCE_SCRIPT_PATH :: "--text" :: "--weights_file" :: suf :=
  C9_amended_empty_text envOK bodyEmptyText wVoiceA
    { userText := "", character := "voiceA", noise := .float ⟨5, 1⟩,
      styleBlend := .float ⟨3, 1⟩, diffusionSteps := .int 5,
      embeddingScale := .float ⟨10, 1⟩, useLongForm := false, inputHash := none,
      enableReferenceAudio := false, timbreRefBlend := .float ⟨25, 2⟩,
      prosodyRefBlend := .float ⟨75, 2⟩, outputFile := "out1",
      gpuId := Json.str "0", sessionId := some "s1" } rfl rfl

/-! ### Claim C10 -/

/-- `bodyFull` with Enable Reference Audio true and User Audio null. -/
def bodyRefNull : Json :=
  Json.obj [
    ("Inputs", Json.obj [("User Text", Json.str "hello"),
                         ("User Audio", Json.null)]),
    ("Options", Json.obj [
      ("Character", Json.str "voiceA"),
      ("Noise", Json.num (.float ⟨5, 1⟩)),
      ("Style Blend", Json.num (.float ⟨3, 1⟩)),
      ("Diffusion Steps", Json.num (.int 5)),
      ("Embedding Scale", Json.num (.float ⟨10, 1⟩)),
      ("Use Long Form", Json.bool false),
      ("Enable Reference Audio", Json.bool true),
      ("Timbre Reference Blend", Json.num (.float ⟨25, 2⟩)),
      ("Prosody Reference Blend", Json.num (.float ⟨75, 2⟩))]),
    ("Output File", Json.str "out1"),
    ("GPU ID", Json.str "0"),
    ("Session ID", Json.str "s1")]

/-- C10: when reference audio is enabled but the reference item identifier
is null, no PREPROCESSED cache read happens and no temporary
reference-audio file is created, yet every command line the request
launches carries the bare `--reference_audio` flag immediately followed by
the `--timbre_ref_blend` flag: the `None` path was filtered out of the
argument list while the flag string was kept. -/
theorem C10_bare_reference_audio (env : Env) (body : Json) (w : World)
    (p : Parsed) (hp : parse_inputs body = .ok p)
    (hera : p.enableReferenceAudio = true) (hih : p.inputHash = none) :
    (generateCore env body w).2.cacheReads = w.cacheReads ∧
    (generateCore env body w).2.tempWritten = w.tempWritten ∧
    ∀ l ∈ (generateCore env body w).2.launched, l ∈ w.launched ∨
      ∃ pre suf, l = pre ++ "--reference_audio" :: "--timbre_ref_blend" :: suf := by
  refine ⟨(generateCore_reads_temp env body w p hp hih).1,
          (generateCore_reads_temp env body w p hp hih).2, ?_⟩
  intro l hl
  rcases generateCore_launched env body w l hl
    with h | ⟨p', w1, ra, config, style, weights, hp', hpre, hr, hcmd⟩
  · exact Or.inl h
  · rw [hp] at hp'
    injection hp' with hpp
    subst hpp
    right
    have hprep : prepare_reference_audio env p.inputHash p.enableReferenceAudio
        p.sessionId w = (w, .ok none) := by
      rw [hih]
      rfl
    rw [hprep] at hpre
    injection hpre with hpre1 hpre2
    injection hpre2 with hpre2
    obtain ⟨pre, suf, hargs⟩ := buildArguments_bare_reference_audio p.userText
      weights config
      (pathJoin OUTPUT_COPY_FOLDER (p.outputFile ++ TEMP_FILE_EXTENSION))
      (some (pyStr p.noise)) (some (pyStr p.styleBlend))
      (some (pyStr p.diffusionSteps)) (some (pyStr p.embeddingScale))
      p.useLongForm style (pyStr p.timbreRefBlend)
      (some (pyStr p.prosodyRefBlend))
    refine ⟨PYTHON_EXECUTABLE :: INFERENCE_SCRIPT_PATH :: pre, suf, ?_⟩
    rw [hcmd]
    unfold inferenceCommand
    rw [← hpre2, hera, hargs]
    simp

/-- Witness for C10: the concrete enabled-reference-audio request with
null User Audio instantiates all three conclusions. -/
theorem C10_witness :
    (generateCore envOK bodyRefNull wVoiceA).2.cacheReads = wVoiceA.cacheReads ∧
    (generateCore envOK bodyRefNull wVoiceA).2.tempWritten = wVoiceA.tempWritten ∧
    ∀ l ∈ (generateCore envOK bodyRefNull wVoiceA).2.launched,
      l ∈ wVoiceA.launched ∨
      ∃ pre suf, l = pre ++ "--reference_audio" :: "--timbre_ref_blend" :: suf :=
  C10_bare_reference_audio envOK bodyRefNull wVoiceA
    { userText := "hello", character := "voiceA", noise := .float ⟨5, 1⟩,
      styleBlend := .float ⟨3, 1⟩, diffusionSteps := .int 5,
      embeddingScale := .float ⟨10, 1⟩, useLongForm := false, inputHash := none,
      enableReferenceAudio := true, timbreRefBlend := .float ⟨25, 2⟩,
      prosodyRefBlend := .float ⟨75, 2⟩, outputFile := "out1",
      gpuId := Json.str "0", sessionId := some "s1" } rfl rfl rfl

/-! ### Claim C8 -/

/-- C8: every response of the generate endpoint is a JSON object with
exactly one field, `message`, holding the base64 encoding of the UTF-8
bytes of the diagnostic message; base64-then-UTF-8 decoding recovers the
original message exactly, and on a 200 response the decoded message is the
empty string. -/
theorem C8_response_single_encoded_message (env : Env) (body : Json) (w : World) :
    (generate env body w).1.body
      = Json.obj [("message",
          Json.str (encodeMessage (generateCore env body w).1.2))] ∧
    decodeMessage (encodeMessage (generateCore env body w).1.2)
      = some (generateCore env body w).1.2 ∧
    ((generate env body w).1.code = 200 → (generateCore env body w).1.2 = "") := by
  refine ⟨?_, decodeMessage_encodeMessage _, ?_⟩
  · unfold generate
    rcases hg : generateCore env body w with ⟨⟨c, m⟩, w'⟩
    simp
  · intro h200
    have hc : (generate env body w).1.code = (generateCore env body w).1.1 := by
      unfold generate
      rcases hg : generateCore env body w with ⟨⟨c, m⟩, w'⟩
      simp
    rw [hc] at h200
    exact (generateCore_200_shape env body w h200).2.2.1

/-- Witness for C8: the concrete all-success run returns 200 and its
message round-trips through the encoding to the empty string. -/
theorem C8_witness :
    (generate envOK bodyFull wVoiceA).1.code = 200 ∧
    (generateCore envOK bodyFull wVoiceA).1.2 = "" ∧
    decodeMessage (encodeMessage (generateCore envOK bodyFull wVoiceA).1.2)
      = some (generateCore envOK bodyFull wVoiceA).1.2 :=
  ⟨rfl, (C8_response_single_encoded_message envOK bodyFull wVoiceA).2.2 rfl,
   (C8_response_single_encoded_message envOK bodyFull wVoiceA).2.1⟩

end StyleTTS2
